import Mathlib

/-!
Shallow embedding of the Keysight/Agilent ESA trace-file decoder from
`esa.go` (package `esa` of github.com/gotmc/keysight).

Modelling conventions:
* The input file is given as the list of lines produced by the buffered
  line scanner (`bufio.Scanner` splitting on newlines).  `os.Open` and
  `scanner.Err()` IO failures are outside the embedding; `scanner.Scan`
  at end of file leaves `scanner.Text() = ""`, which is modelled by
  `List.headD lines ""`.
* Go `float64` values are modelled as exact rationals (`Rat`); the IEEE
  rounding performed by `strconv.ParseFloat` is not modelled, but the
  success/failure behaviour of the parse and the placement of parsed
  values are.  `strconv.ParseFloat` is modelled on the plain decimal
  subset (optional sign, digits with optional fraction, optional
  exponent), which covers every numeric field of the file format.
* Go `int` is modelled as `Int` with the `strconv.Atoi` range check.
* A Go function returning `(Trace, error)` yields `Result.ok` or
  `Result.fail` (the error together with the partially built trace);
  a Go runtime panic (out-of-range slice index, `make` with negative
  length) yields `Result.panic`, the error branch of the total
  embedding for abrupt termination.
-/

namespace Esa

/-- The `Trace` struct of `esa.go`.  The `Timestamp time.Time` field is
never assigned by `ReadCSVFile` (it always keeps its zero value) and is
omitted.  Field defaults are the Go zero values. -/
structure Trace where
  OriginalFilename : String := ""
  Title : String := ""
  Model : String := ""
  SerialNum : String := ""
  CenterFreq : Rat := 0
  Span : Rat := 0
  RBW : Rat := 0
  VBW : Rat := 0
  RefLevel : Rat := 0
  SweepTime : Rat := 0
  NumPoints : Int := 0
  FreqLabel : String := ""
  Trace1Label : String := ""
  Trace2Label : String := ""
  Trace3Label : String := ""
  FreqUnits : String := ""
  Trace1Units : String := ""
  Trace2Units : String := ""
  Trace3Units : String := ""
  Frequency : List Rat := []
  Trace1 : List Rat := []
  Trace2 : List Rat := []
  Trace3 : List Rat := []
  deriving Repr, DecidableEq

/-- Outcome of `ReadCSVFile`: a normal return `(trace, nil)`, a normal
return `(trace, err)` carrying the partially built trace, or a Go
runtime panic (abrupt termination, no value returned). -/
inductive Result where
  | ok (t : Trace)
  | fail (t : Trace) (msg : String)
  | panic (msg : String)
  deriving Repr, DecidableEq

/-- Numeric value of a list of ASCII digits (most significant first). -/
def digitsVal (ds : List Char) : Nat :=
  ds.foldl (fun n c => 10 * n + (c.toNat - 48)) 0

/-- Model of `strings.Split line ","`: split on every comma, no quoting or
escaping.  `splitComma "" = [""]`, so the result is never empty. -/
def splitCommaAux : List Char → List Char → List String
  | [], acc => [String.mk acc.reverse]
  | c :: cs, acc =>
    if c = ',' then String.mk acc.reverse :: splitCommaAux cs []
    else splitCommaAux cs (c :: acc)

/-- Model of `strings.Split` of `esa.go`, specialised to the `","` separator. -/
def splitComma (s : String) : List String :=
  splitCommaAux s.data []

/-- Model of `strings.TrimSpace`: remove leading and trailing whitespace. -/
def trimSpace (s : String) : String :=
  String.mk (((s.data.dropWhile Char.isWhitespace).reverse.dropWhile
    Char.isWhitespace).reverse)

/-- Model of `strconv.Atoi`: optional sign, one or more ASCII digits, nothing
else, and the value must fit in a 64-bit `int`. -/
def atoi (s : String) : Option Int :=
  let p : Int × List Char :=
    match s.toList with
    | '+' :: r => (1, r)
    | '-' :: r => (-1, r)
    | r => (1, r)
  if p.2 ≠ [] ∧ p.2.all Char.isDigit then
    let v : Int := p.1 * (digitsVal p.2 : Int)
    if -(2 ^ 63) ≤ v ∧ v < 2 ^ 63 then some v else none
  else none

/-- Model of `strconv.ParseFloat` on the plain decimal subset: optional sign, an
integer part and/or a fractional part (at least one digit between
them), optionally `e`/`E` with optional sign and one or more digits.
The value `sign * ip.fp * 10^exp` is built as one exact rational via
`mkRat`; IEEE-754 rounding is not modelled. -/
def parseFloat (s : String) : Option Rat :=
  let p : Int × List Char :=
    match s.toList with
    | '+' :: r => (1, r)
    | '-' :: r => (-1, r)
    | r => (1, r)
  let ip := p.2.takeWhile Char.isDigit
  let rest1 := p.2.dropWhile Char.isDigit
  let q : List Char × List Char :=
    match rest1 with
    | '.' :: r => (r.takeWhile Char.isDigit, r.dropWhile Char.isDigit)
    | r => ([], r)
  if ip = [] ∧ q.1 = [] then none
  else
    let fl := q.1.length
    let m : Int := (digitsVal ip * 10 ^ fl + digitsVal q.1 : Nat)
    match q.2 with
    | [] => some (mkRat (p.1 * m) (10 ^ fl))
    | e :: r =>
      if e = 'e' ∨ e = 'E' then
        let ep : Bool × List Char :=
          match r with
          | '+' :: rr => (false, rr)
          | '-' :: rr => (true, rr)
          | rr => (false, rr)
        let ed := ep.2.takeWhile Char.isDigit
        let rest3 := ep.2.dropWhile Char.isDigit
        if ed = [] ∨ rest3 ≠ [] then none
        else if ep.1 then some (mkRat (p.1 * m) (10 ^ fl * 10 ^ digitsVal ed))
        else some (mkRat (p.1 * m * (10 ^ digitsVal ed : Nat)) (10 ^ fl))
      else none

/-- Model of `strings.TrimSuffix s suf`: drop `suf` from the end of `s` if
present, once. -/
def trimSuffix (s suf : String) : String :=
  if suf.data.isSuffixOf s.data then
    String.mk (s.data.take (s.data.length - suf.data.length))
  else s

/-- Text of the `strconv` conversion error.  The exact wording only
approximates Go's `*strconv.NumError`; no claim depends on it. -/
def parseFloatErrMsg (s : String) : String :=
  "strconv.ParseFloat: parsing \"" ++ s ++ "\": invalid syntax"

/-- Text of the `strconv.Atoi` error; wording approximate, see
`parseFloatErrMsg`. -/
def atoiErrMsg (s : String) : String :=
  "strconv.Atoi: parsing \"" ++ s ++ "\": invalid syntax"

/-- The helper `getLineAndSplitColumns` of `esa.go`: scan one line (empty at end
of file), split it on commas, and check the field count.  The Go
version also returns the split fields alongside the error; no caller
uses them in that case, so the error branch carries only the message. -/
def getLineAndSplitColumns (lines : List String) (numEntries : Nat) :
    Except String (List String) × List String :=
  let line := lines.headD ""
  let s := splitComma line
  if s.length = numEntries then (.ok s, lines.tail)
  else
    (.error ("wrong number of entries / got " ++ toString s.length ++
      " / expected " ++ toString numEntries), lines.tail)

/-- The bounds-checked Go slice write `l[i] = v`: `none` is the
out-of-range panic. -/
def setAt (l : List Rat) (i : Nat) (v : Rat) : Option (List Rat) :=
  if i < l.length then some (l.set i v) else none

/-- The data-section loop of `ReadCSVFile` (`for scanner.Scan()`): each
line must split into 4 fields, each field is trimmed and parsed as a
float, and the values are written at index `i` of the four sample
slices.  The writes are the bounds-checked Go writes; an index at or
beyond the slice length is the runtime panic. -/
def dataLoop (t : Trace) (i : Nat) (lines : List String) : Result :=
  match lines with
  | [] => .ok t
  | line :: rest =>
    let s := splitComma line
    if s.length = 4 then
      match parseFloat (trimSpace (s.getD 0 "")) with
      | none => .fail t ("error parsing frequency " ++ s.getD 0 "" ++
          " for data point " ++ toString i)
      | some freq =>
        match parseFloat (trimSpace (s.getD 1 "")) with
        | none => .fail t ("error parsing trace 1 " ++ s.getD 1 "" ++
            " for data point " ++ toString i)
        | some v1 =>
          match parseFloat (trimSpace (s.getD 2 "")) with
          | none => .fail t ("error parsing trace 2 " ++ s.getD 2 "" ++
              " for data point " ++ toString i)
          | some v2 =>
            match parseFloat (trimSpace (s.getD 3 "")) with
            | none => .fail t ("error parsing trace 3 " ++ s.getD 3 "" ++
                " for data point " ++ toString i)
            | some v3 =>
              match setAt t.Frequency i freq with
              | none => .panic "runtime error: index out of range"
              | some fr =>
                match setAt t.Trace1 i v1 with
                | none => .panic "runtime error: index out of range"
                | some w1 =>
                  match setAt t.Trace2 i v2 with
                  | none => .panic "runtime error: index out of range"
                  | some w2 =>
                    match setAt t.Trace3 i v3 with
                    | none => .panic "runtime error: index out of range"
                    | some w3 =>
                      dataLoop
                        { t with
                          Frequency := fr
                          Trace1 := w1
                          Trace2 := w2
                          Trace3 := w3 } (i + 1) rest
    else .fail t ("error in trace data line: " ++ line)

/-- Allocation of the four sample slices
(`make([]float64, trace.NumPoints)` each) followed by the data loop.
`make` with a negative length is the runtime panic. -/
def readDataOn (t : Trace) (lines : List String) : Result :=
  if t.NumPoints < 0 then .panic "runtime error: makeslice: len out of range"
  else
    dataLoop { t with
      Frequency := List.replicate t.NumPoints.toNat 0,
      Trace1 := List.replicate t.NumPoints.toNat 0,
      Trace2 := List.replicate t.NumPoints.toNat 0,
      Trace3 := List.replicate t.NumPoints.toNat 0 } 0 lines

/-- Line 15 of the file: the unit strings.  Note the source trims the
three trace units but stores `s[0]` into `FreqUnits` untrimmed. -/
def readUnitsOn (t : Trace) (lines : List String) : Result :=
  let line := lines.headD ""
  let s := splitComma line
  if s.length = 4 then
    readDataOn { t with
      FreqUnits := s.getD 0 "",
      Trace1Units := trimSpace (s.getD 1 ""),
      Trace2Units := trimSpace (s.getD 2 ""),
      Trace3Units := trimSpace (s.getD 3 "") } lines.tail
  else .fail t ("error in trace units line: " ++ line)

/-- Lines 12-14: two blank lines are skipped with bare `scanner.Scan()`
calls, then line 14 supplies the four labels. -/
def readLabelsOn (t : Trace) (lines : List String) : Result :=
  let rest := lines.tail.tail
  let line := rest.headD ""
  let s := splitComma line
  if s.length = 4 then
    readUnitsOn { t with
      FreqLabel := s.getD 0 "",
      Trace1Label := s.getD 1 "",
      Trace2Label := s.getD 2 "",
      Trace3Label := s.getD 3 "" } rest.tail
  else .fail t ("error in trace label line: " ++ line)

/-- Line 11: the number of points, parsed with `strconv.Atoi`. -/
def readNumPointsOn (t : Trace) (lines : List String) : Result :=
  match getLineAndSplitColumns lines 2 with
  | (.error m, _) => .fail t ("error in eleventh (num points) line: " ++ m)
  | (.ok cols, rest) =>
    match atoi (cols.getD 1 "") with
    | none => .fail t ("error parsing num points: " ++ atoiErrMsg (cols.getD 1 ""))
    | some n => readLabelsOn { t with NumPoints := n } rest

/-- Common shape of the six float-valued header lines (lines 5-10 of
`esa.go`, each a copy of the same block): 3 fields expected, field 1
parsed as a float.  `esa.go` spells this block out six times; `set`
and `next` identify the per-block field and continuation. -/
def readRatLine (pfx errName : String) (set : Trace → Rat → Trace)
    (next : Trace → List String → Result) (t : Trace) (lines : List String) :
    Result :=
  match getLineAndSplitColumns lines 3 with
  | (.error m, _) => .fail t ("error in " ++ pfx ++ " line: " ++ m)
  | (.ok cols, rest) =>
    match parseFloat (cols.getD 1 "") with
    | none => .fail t ("error parsing " ++ errName ++ ": " ++
        parseFloatErrMsg (cols.getD 1 ""))
    | some v => next (set t v) rest

/-- Common shape of the four string-valued header lines (lines 1-4):
2 fields expected, field 1 stored via `set`. -/
def readStrLine (pfx : String) (set : Trace → String → Trace)
    (next : Trace → List String → Result) (t : Trace) (lines : List String) :
    Result :=
  match getLineAndSplitColumns lines 2 with
  | (.error m, _) => .fail t ("error in " ++ pfx ++ " line: " ++ m)
  | (.ok cols, rest) => next (set t (cols.getD 1 "")) rest

/-- Line 10: sweep time. -/
def readSweepTimeOn : Trace → List String → Result :=
  readRatLine "tenth (sweep time)" "sweep time"
    (fun t v => { t with SweepTime := v }) readNumPointsOn

/-- Line 9: reference level. -/
def readRefLevelOn : Trace → List String → Result :=
  readRatLine "ninth (ref level)" "ref level"
    (fun t v => { t with RefLevel := v }) readSweepTimeOn

/-- Line 8: video bandwidth. -/
def readVBWOn : Trace → List String → Result :=
  readRatLine "eighth (vbw)" "vbw"
    (fun t v => { t with VBW := v }) readRefLevelOn

/-- Line 7: resolution bandwidth. -/
def readRBWOn : Trace → List String → Result :=
  readRatLine "seventh (rbw)" "rbw"
    (fun t v => { t with RBW := v }) readVBWOn

/-- Line 6: span. -/
def readSpanOn : Trace → List String → Result :=
  readRatLine "sixth (span)" "span"
    (fun t v => { t with Span := v }) readRBWOn

/-- Line 5: center frequency. -/
def readCenterFreqOn : Trace → List String → Result :=
  readRatLine "fifth (center freq)" "center frequency"
    (fun t v => { t with CenterFreq := v }) readSpanOn

/-- Line 4: serial number, with a trailing NUL byte stripped. -/
def readSerialOn : Trace → List String → Result :=
  readStrLine "fourth (serial number)"
    (fun t v => { t with SerialNum := trimSuffix v "\x00" }) readCenterFreqOn

/-- Line 3: model. -/
def readModelOn : Trace → List String → Result :=
  readStrLine "third (model)"
    (fun t v => { t with Model := v }) readSerialOn

/-- Line 2: title. -/
def readTitleOn : Trace → List String → Result :=
  readStrLine "second (title)"
    (fun t v => { t with Title := v }) readModelOn

/-- The function `ReadCSVFile` of `esa.go`, on the scanned lines of the file: parse
line 1 (date / original filename) and hand the rest to the chain of
per-line readers above, which together are the straight-line body of
the Go function. -/
def ReadCSVFile (lines : List String) : Result :=
  readStrLine "first (date/filename)"
    (fun t v => { t with OriginalFilename := v }) readTitleOn {} lines

/-! ### Vocabulary for the statements

The following definitions name, in terms of the input lines, the values
the decoder extracts: `nthLine` is the line the scanner sees at a given
0-based position (empty past end of file), `col` a comma-separated
field of it, `stepsOK` says that the first `k` parsing steps succeed,
and `hdrTrace lines k` is the trace built by the first `k` steps — the
fields set by those steps hold their parsed values and every other
field still holds its Go zero value. -/

/-- Line `n` (0-based) as the scanner sees it: empty past end of file. -/
def nthLine (lines : List String) (n : Nat) : String :=
  lines.getD n ""

/-- Comma-separated field `idx` of line `row` (both 0-based). -/
def col (lines : List String) (row idx : Nat) : String :=
  (splitComma (nthLine lines row)).getD idx ""

/-- Field count `getLineAndSplitColumns` expects for header line `k`
(1-based): 3 for the six float lines 5-10, else 2. -/
def headerExpected (k : Nat) : Nat :=
  if 5 ≤ k ∧ k ≤ 10 then 3 else 2

/-- The per-line tag used in the header error messages of `esa.go`. -/
def hdrDesc : Nat → String
  | 1 => "first (date/filename)"
  | 2 => "second (title)"
  | 3 => "third (model)"
  | 4 => "fourth (serial number)"
  | 5 => "fifth (center freq)"
  | 6 => "sixth (span)"
  | 7 => "seventh (rbw)"
  | 8 => "eighth (vbw)"
  | 9 => "ninth (ref level)"
  | 10 => "tenth (sweep time)"
  | _ => "eleventh (num points)"

/-- The field name used in the numeric-conversion error messages of
header lines 5-10. -/
def hdrErrName : Nat → String
  | 5 => "center frequency"
  | 6 => "span"
  | 7 => "rbw"
  | 8 => "vbw"
  | 9 => "ref level"
  | _ => "sweep time"

/-- Success condition of parsing step `k` (1-based): steps 1-11 are the
header lines, step 12 the label line (line 14 of the file, after the
two skipped blanks), step 13 the units line (line 15). -/
def stepCond (lines : List String) : Nat → Bool
  | 1 => (splitComma (nthLine lines 0)).length == 2
  | 2 => (splitComma (nthLine lines 1)).length == 2
  | 3 => (splitComma (nthLine lines 2)).length == 2
  | 4 => (splitComma (nthLine lines 3)).length == 2
  | 5 => (splitComma (nthLine lines 4)).length == 3 && (parseFloat (col lines 4 1)).isSome
  | 6 => (splitComma (nthLine lines 5)).length == 3 && (parseFloat (col lines 5 1)).isSome
  | 7 => (splitComma (nthLine lines 6)).length == 3 && (parseFloat (col lines 6 1)).isSome
  | 8 => (splitComma (nthLine lines 7)).length == 3 && (parseFloat (col lines 7 1)).isSome
  | 9 => (splitComma (nthLine lines 8)).length == 3 && (parseFloat (col lines 8 1)).isSome
  | 10 => (splitComma (nthLine lines 9)).length == 3 && (parseFloat (col lines 9 1)).isSome
  | 11 => (splitComma (nthLine lines 10)).length == 2 && (atoi (col lines 10 1)).isSome
  | 12 => (splitComma (nthLine lines 13)).length == 4
  | 13 => (splitComma (nthLine lines 14)).length == 4
  | _ => true

/-- The first `k` parsing steps all succeed. -/
def stepsOK (lines : List String) : Nat → Bool
  | 0 => true
  | k + 1 => stepsOK lines k && stepCond lines (k + 1)

/-- The field update performed by parsing step `k + 1` on the trace
built so far (identity for `k ≥ 13`). -/
def hdrStep (lines : List String) (k : Nat) (t : Trace) : Trace :=
  match k with
  | 0 => { t with OriginalFilename := col lines 0 1 }
  | 1 => { t with Title := col lines 1 1 }
  | 2 => { t with Model := col lines 2 1 }
  | 3 => { t with SerialNum := trimSuffix (col lines 3 1) "\x00" }
  | 4 => { t with CenterFreq := (parseFloat (col lines 4 1)).getD 0 }
  | 5 => { t with Span := (parseFloat (col lines 5 1)).getD 0 }
  | 6 => { t with RBW := (parseFloat (col lines 6 1)).getD 0 }
  | 7 => { t with VBW := (parseFloat (col lines 7 1)).getD 0 }
  | 8 => { t with RefLevel := (parseFloat (col lines 8 1)).getD 0 }
  | 9 => { t with SweepTime := (parseFloat (col lines 9 1)).getD 0 }
  | 10 => { t with NumPoints := (atoi (col lines 10 1)).getD 0 }
  | 11 => { t with
            FreqLabel := col lines 13 0
            Trace1Label := col lines 13 1
            Trace2Label := col lines 13 2
            Trace3Label := col lines 13 3 }
  | 12 => { t with
            FreqUnits := col lines 14 0
            Trace1Units := trimSpace (col lines 14 1)
            Trace2Units := trimSpace (col lines 14 2)
            Trace3Units := trimSpace (col lines 14 3) }
  | _ => t

/-- The trace after the first `k` successful parsing steps: fields set
by steps 1..k hold their parsed values, all others their zero values. -/
def hdrTrace (lines : List String) : Nat → Trace
  | 0 => {}
  | k + 1 => hdrStep lines k (hdrTrace lines k)

/-! ### Basic line-scanner lemmas -/

theorem headD_eq_nthLine (l : List String) : l.headD "" = nthLine l 0 := by
  cases l <;> rfl

theorem tail_eq_drop_one (l : List String) : l.tail = l.drop 1 :=
  (List.drop_one l).symm

theorem nthLine_drop (l : List String) (n k : Nat) :
    nthLine (l.drop n) k = nthLine l (n + k) := by
  simp [nthLine, List.getD_eq_getElem?_getD, List.getElem?_drop]

theorem headD_drop (l : List String) (n : Nat) :
    (l.drop n).headD "" = nthLine l n := by
  rw [headD_eq_nthLine, nthLine_drop, Nat.add_zero]

theorem tail_drop' (l : List String) (n : Nat) :
    (l.drop n).tail = l.drop (n + 1) :=
  List.tail_drop l n

/-! ### Stepping lemmas for the reader chain -/

theorem gls_ok (lines : List String) (n : Nat)
    (h : (splitComma (lines.headD "")).length = n) :
    getLineAndSplitColumns lines n = (.ok (splitComma (lines.headD "")), lines.tail) := by
  simp only [getLineAndSplitColumns, h, eq_self_iff_true, if_true]

theorem gls_fail (lines : List String) (n : Nat)
    (h : (splitComma (lines.headD "")).length ≠ n) :
    getLineAndSplitColumns lines n =
      (.error ("wrong number of entries / got " ++
        toString (splitComma (lines.headD "")).length ++ " / expected " ++ toString n),
       lines.tail) := by
  simp only [getLineAndSplitColumns]
  rw [if_neg h]

theorem readStrLine_step (pfx : String) (set : Trace → String → Trace)
    (next : Trace → List String → Result) (t : Trace) (lines : List String)
    (h : (splitComma (lines.headD "")).length = 2) :
    readStrLine pfx set next t lines =
      next (set t ((splitComma (lines.headD "")).getD 1 "")) lines.tail := by
  simp only [readStrLine, gls_ok lines 2 h]

theorem readStrLine_fail (pfx : String) (set : Trace → String → Trace)
    (next : Trace → List String → Result) (t : Trace) (lines : List String)
    (h : (splitComma (lines.headD "")).length ≠ 2) :
    readStrLine pfx set next t lines =
      .fail t ("error in " ++ pfx ++ " line: " ++ ("wrong number of entries / got " ++
        toString (splitComma (lines.headD "")).length ++ " / expected " ++ toString 2)) := by
  simp only [readStrLine, gls_fail lines 2 h]

theorem readRatLine_step (pfx errName : String) (set : Trace → Rat → Trace)
    (next : Trace → List String → Result) (t : Trace) (lines : List String) (v : Rat)
    (h : (splitComma (lines.headD "")).length = 3)
    (hv : parseFloat ((splitComma (lines.headD "")).getD 1 "") = some v) :
    readRatLine pfx errName set next t lines = next (set t v) lines.tail := by
  simp only [readRatLine, gls_ok lines 3 h, hv]

theorem readRatLine_failCount (pfx errName : String) (set : Trace → Rat → Trace)
    (next : Trace → List String → Result) (t : Trace) (lines : List String)
    (h : (splitComma (lines.headD "")).length ≠ 3) :
    readRatLine pfx errName set next t lines =
      .fail t ("error in " ++ pfx ++ " line: " ++ ("wrong number of entries / got " ++
        toString (splitComma (lines.headD "")).length ++ " / expected " ++ toString 3)) := by
  simp only [readRatLine, gls_fail lines 3 h]

theorem readRatLine_failParse (pfx errName : String) (set : Trace → Rat → Trace)
    (next : Trace → List String → Result) (t : Trace) (lines : List String)
    (h : (splitComma (lines.headD "")).length = 3)
    (hv : parseFloat ((splitComma (lines.headD "")).getD 1 "") = none) :
    readRatLine pfx errName set next t lines =
      .fail t ("error parsing " ++ errName ++ ": " ++
        parseFloatErrMsg ((splitComma (lines.headD "")).getD 1 "")) := by
  simp only [readRatLine, gls_ok lines 3 h, hv]

/-! ### Reaching each stage: `ReadCSVFile` after `k` successful steps -/

theorem upTo1 (lines : List String) (h : stepsOK lines 1 = true) :
    ReadCSVFile lines = readTitleOn (hdrTrace lines 1) (lines.drop 1) := by
  simp only [stepsOK, stepCond, Bool.true_and, beq_iff_eq] at h
  rw [ReadCSVFile, readStrLine_step _ _ _ _ _ (by rw [headD_eq_nthLine]; exact h)]
  rw [headD_eq_nthLine, tail_eq_drop_one]
  simp [hdrTrace, hdrStep, col]

theorem stepsOK_pred (lines : List String) (k : Nat)
    (h : stepsOK lines (k + 1) = true) : stepsOK lines k = true := by
  rw [show stepsOK lines (k + 1) = (stepsOK lines k && stepCond lines (k + 1)) from
    rfl, Bool.and_eq_true] at h
  exact h.1

theorem stepsOK_cond (lines : List String) (k : Nat)
    (h : stepsOK lines (k + 1) = true) : stepCond lines (k + 1) = true := by
  rw [show stepsOK lines (k + 1) = (stepsOK lines k && stepCond lines (k + 1)) from
    rfl, Bool.and_eq_true] at h
  exact h.2

theorem upTo2 (lines : List String) (h : stepsOK lines 2 = true) :
    ReadCSVFile lines = readModelOn (hdrTrace lines 2) (lines.drop 2) := by
  have hp := stepsOK_pred lines 1 h
  have hc := stepsOK_cond lines 1 h
  simp only [stepCond, beq_iff_eq] at hc
  rw [upTo1 lines hp]
  simp only [readTitleOn]
  rw [readStrLine_step _ _ _ _ _ (by rw [headD_drop]; exact hc)]
  rw [headD_drop, tail_drop']
  simp [hdrTrace, hdrStep, col]

theorem upTo3 (lines : List String) (h : stepsOK lines 3 = true) :
    ReadCSVFile lines = readSerialOn (hdrTrace lines 3) (lines.drop 3) := by
  have hp := stepsOK_pred lines 2 h
  have hc := stepsOK_cond lines 2 h
  simp only [stepCond, beq_iff_eq] at hc
  rw [upTo2 lines hp]
  simp only [readModelOn]
  rw [readStrLine_step _ _ _ _ _ (by rw [headD_drop]; exact hc)]
  rw [headD_drop, tail_drop']
  simp [hdrTrace, hdrStep, col]

theorem upTo4 (lines : List String) (h : stepsOK lines 4 = true) :
    ReadCSVFile lines = readCenterFreqOn (hdrTrace lines 4) (lines.drop 4) := by
  have hp := stepsOK_pred lines 3 h
  have hc := stepsOK_cond lines 3 h
  simp only [stepCond, beq_iff_eq] at hc
  rw [upTo3 lines hp]
  simp only [readSerialOn]
  rw [readStrLine_step _ _ _ _ _ (by rw [headD_drop]; exact hc)]
  rw [headD_drop, tail_drop']
  simp [hdrTrace, hdrStep, col]

theorem upTo5 (lines : List String) (h : stepsOK lines 5 = true) :
    ReadCSVFile lines = readSpanOn (hdrTrace lines 5) (lines.drop 5) := by
  have hp := stepsOK_pred lines 4 h
  have hc := stepsOK_cond lines 4 h
  simp only [stepCond, Bool.and_eq_true, beq_iff_eq] at hc
  obtain ⟨hlen, hsome⟩ := hc
  obtain ⟨v, hv⟩ := Option.isSome_iff_exists.mp hsome
  rw [upTo4 lines hp]
  simp only [readCenterFreqOn]
  rw [readRatLine_step _ _ _ _ _ _ v (by rw [headD_drop]; exact hlen)
    (by rw [headD_drop]; exact hv)]
  rw [tail_drop']
  simp only [hdrTrace, hdrStep]
  rw [hv]
  simp [col]

theorem upTo6 (lines : List String) (h : stepsOK lines 6 = true) :
    ReadCSVFile lines = readRBWOn (hdrTrace lines 6) (lines.drop 6) := by
  have hp := stepsOK_pred lines 5 h
  have hc := stepsOK_cond lines 5 h
  simp only [stepCond, Bool.and_eq_true, beq_iff_eq] at hc
  obtain ⟨hlen, hsome⟩ := hc
  obtain ⟨v, hv⟩ := Option.isSome_iff_exists.mp hsome
  rw [upTo5 lines hp]
  simp only [readSpanOn]
  rw [readRatLine_step _ _ _ _ _ _ v (by rw [headD_drop]; exact hlen)
    (by rw [headD_drop]; exact hv)]
  rw [tail_drop']
  simp only [hdrTrace, hdrStep]
  rw [hv]
  simp [col]

theorem upTo7 (lines : List String) (h : stepsOK lines 7 = true) :
    ReadCSVFile lines = readVBWOn (hdrTrace lines 7) (lines.drop 7) := by
  have hp := stepsOK_pred lines 6 h
  have hc := stepsOK_cond lines 6 h
  simp only [stepCond, Bool.and_eq_true, beq_iff_eq] at hc
  obtain ⟨hlen, hsome⟩ := hc
  obtain ⟨v, hv⟩ := Option.isSome_iff_exists.mp hsome
  rw [upTo6 lines hp]
  simp only [readRBWOn]
  rw [readRatLine_step _ _ _ _ _ _ v (by rw [headD_drop]; exact hlen)
    (by rw [headD_drop]; exact hv)]
  rw [tail_drop']
  simp only [hdrTrace, hdrStep]
  rw [hv]
  simp [col]

theorem upTo8 (lines : List String) (h : stepsOK lines 8 = true) :
    ReadCSVFile lines = readRefLevelOn (hdrTrace lines 8) (lines.drop 8) := by
  have hp := stepsOK_pred lines 7 h
  have hc := stepsOK_cond lines 7 h
  simp only [stepCond, Bool.and_eq_true, beq_iff_eq] at hc
  obtain ⟨hlen, hsome⟩ := hc
  obtain ⟨v, hv⟩ := Option.isSome_iff_exists.mp hsome
  rw [upTo7 lines hp]
  simp only [readVBWOn]
  rw [readRatLine_step _ _ _ _ _ _ v (by rw [headD_drop]; exact hlen)
    (by rw [headD_drop]; exact hv)]
  rw [tail_drop']
  simp only [hdrTrace, hdrStep]
  rw [hv]
  simp [col]

theorem upTo9 (lines : List String) (h : stepsOK lines 9 = true) :
    ReadCSVFile lines = readSweepTimeOn (hdrTrace lines 9) (lines.drop 9) := by
  have hp := stepsOK_pred lines 8 h
  have hc := stepsOK_cond lines 8 h
  simp only [stepCond, Bool.and_eq_true, beq_iff_eq] at hc
  obtain ⟨hlen, hsome⟩ := hc
  obtain ⟨v, hv⟩ := Option.isSome_iff_exists.mp hsome
  rw [upTo8 lines hp]
  simp only [readRefLevelOn]
  rw [readRatLine_step _ _ _ _ _ _ v (by rw [headD_drop]; exact hlen)
    (by rw [headD_drop]; exact hv)]
  rw [tail_drop']
  simp only [hdrTrace, hdrStep]
  rw [hv]
  simp [col]

theorem upTo10 (lines : List String) (h : stepsOK lines 10 = true) :
    ReadCSVFile lines = readNumPointsOn (hdrTrace lines 10) (lines.drop 10) := by
  have hp := stepsOK_pred lines 9 h
  have hc := stepsOK_cond lines 9 h
  simp only [stepCond, Bool.and_eq_true, beq_iff_eq] at hc
  obtain ⟨hlen, hsome⟩ := hc
  obtain ⟨v, hv⟩ := Option.isSome_iff_exists.mp hsome
  rw [upTo9 lines hp]
  simp only [readSweepTimeOn]
  rw [readRatLine_step _ _ _ _ _ _ v (by rw [headD_drop]; exact hlen)
    (by rw [headD_drop]; exact hv)]
  rw [tail_drop']
  simp only [hdrTrace, hdrStep]
  rw [hv]
  simp [col]

theorem upTo11 (lines : List String) (h : stepsOK lines 11 = true) :
    ReadCSVFile lines = readLabelsOn (hdrTrace lines 11) (lines.drop 11) := by
  have hp := stepsOK_pred lines 10 h
  have hc := stepsOK_cond lines 10 h
  simp only [stepCond, Bool.and_eq_true, beq_iff_eq] at hc
  obtain ⟨hlen, hsome⟩ := hc
  obtain ⟨v, hv⟩ := Option.isSome_iff_exists.mp hsome
  rw [upTo10 lines hp]
  simp only [readNumPointsOn]
  rw [gls_ok _ 2 (by rw [headD_drop]; exact hlen)]
  rw [headD_drop, tail_drop']
  have hv' : atoi ((splitComma (nthLine lines 10)).getD 1 "") = some v := hv
  simp only [List.getD_eq_getElem?_getD] at hv'
  simp [hdrTrace, hdrStep, col, hv']

theorem upTo12 (lines : List String) (h : stepsOK lines 12 = true) :
    ReadCSVFile lines = readUnitsOn (hdrTrace lines 12) (lines.drop 14) := by
  have hp := stepsOK_pred lines 11 h
  have hc := stepsOK_cond lines 11 h
  simp only [stepCond, beq_iff_eq] at hc
  rw [upTo11 lines hp]
  simp only [readLabelsOn]
  rw [tail_drop', tail_drop', headD_drop]
  simp only [show (11 : Nat) + 1 = 12 from rfl, show (12 : Nat) + 1 = 13 from rfl]
  rw [if_pos hc, tail_drop']
  simp [hdrTrace, hdrStep, col]

theorem upTo13 (lines : List String) (h : stepsOK lines 13 = true) :
    ReadCSVFile lines = readDataOn (hdrTrace lines 13) (lines.drop 15) := by
  have hp := stepsOK_pred lines 12 h
  have hc := stepsOK_cond lines 12 h
  simp only [stepCond, beq_iff_eq] at hc
  rw [upTo12 lines hp]
  simp only [readUnitsOn]
  rw [headD_drop]
  rw [if_pos hc, tail_drop']
  simp [hdrTrace, hdrStep, col]

/-! ### Vocabulary and lemmas for the data section -/

/-- The parsed value of column `c` of a data line (0 when absent or
unparsable; used only where the parse is known to succeed). -/
def rowVal (line : String) (c : Nat) : Rat :=
  (parseFloat (trimSpace ((splitComma line).getD c ""))).getD 0

/-- A well-formed data line: 4 comma-separated fields, each parsing as
a float after trimming. -/
def wfRow (line : String) : Bool :=
  (splitComma line).length == 4 &&
  (parseFloat (trimSpace ((splitComma line).getD 0 ""))).isSome &&
  (parseFloat (trimSpace ((splitComma line).getD 1 ""))).isSome &&
  (parseFloat (trimSpace ((splitComma line).getD 2 ""))).isSome &&
  (parseFloat (trimSpace ((splitComma line).getD 3 ""))).isSome

/-- The four slice writes performed for data point `i`. -/
def writeRow (t : Trace) (i : Nat) (line : String) : Trace :=
  { t with
    Frequency := t.Frequency.set i (rowVal line 0)
    Trace1 := t.Trace1.set i (rowVal line 1)
    Trace2 := t.Trace2.set i (rowVal line 2)
    Trace3 := t.Trace3.set i (rowVal line 3) }

/-- The writes performed by a fully successful run of the data loop
over `rows`, starting at point index `i`. -/
def writeRows (t : Trace) (i : Nat) : List String → Trace
  | [] => t
  | l :: ls => writeRows (writeRow t i l) (i + 1) ls

/-- The trace `t` with the four sample slices replaced (scalar fields kept). -/
def withSamples (t : Trace) (f a b c : List Rat) : Trace :=
  { t with Frequency := f, Trace1 := a, Trace2 := b, Trace3 := c }

/-- The trace a normal return carries (`none` for a runtime panic). -/
def traceOf : Result → Option Trace
  | .ok t => some t
  | .fail t _ => some t
  | .panic _ => none

/-- The error the data loop raises on a given line at point index `i`,
if any: the field-count check, then the four float conversions in
column order, exactly as in the loop body of `esa.go`. -/
def rowErr (line : String) (i : Nat) : Option String :=
  let s := splitComma line
  if s.length = 4 then
    match parseFloat (trimSpace (s.getD 0 "")) with
    | none => some ("error parsing frequency " ++ s.getD 0 "" ++
        " for data point " ++ toString i)
    | some _ =>
      match parseFloat (trimSpace (s.getD 1 "")) with
      | none => some ("error parsing trace 1 " ++ s.getD 1 "" ++
          " for data point " ++ toString i)
      | some _ =>
        match parseFloat (trimSpace (s.getD 2 "")) with
        | none => some ("error parsing trace 2 " ++ s.getD 2 "" ++
            " for data point " ++ toString i)
        | some _ =>
          match parseFloat (trimSpace (s.getD 3 "")) with
          | none => some ("error parsing trace 3 " ++ s.getD 3 "" ++
              " for data point " ++ toString i)
          | some _ => none
  else some ("error in trace data line: " ++ line)

/-- Characterisation of one iteration of the data loop: the row either
raises its error, or its four values are written (a write out of range
being the runtime panic). -/
theorem dataLoop_cons_eq (t : Trace) (i : Nat) (r : String) (rs : List String) :
    dataLoop t i (r :: rs) =
      match rowErr r i with
      | some m => .fail t m
      | none =>
        if i < t.Frequency.length ∧ i < t.Trace1.length ∧
            i < t.Trace2.length ∧ i < t.Trace3.length
        then dataLoop (writeRow t i r) (i + 1) rs
        else .panic "runtime error: index out of range" := by
  simp only [dataLoop, rowErr]
  by_cases hlen : (splitComma r).length = 4
  · rw [if_pos hlen, if_pos hlen]
    rcases hv0 : parseFloat (trimSpace ((splitComma r).getD 0 "")) with _ | f0
    · simp only [hv0]
    · rcases hv1 : parseFloat (trimSpace ((splitComma r).getD 1 "")) with _ | f1
      · simp only [hv0, hv1]
      · rcases hv2 : parseFloat (trimSpace ((splitComma r).getD 2 "")) with _ | f2
        · simp only [hv0, hv1, hv2]
        · rcases hv3 : parseFloat (trimSpace ((splitComma r).getD 3 "")) with _ | f3
          · simp only [hv0, hv1, hv2, hv3]
          · simp only [hv0, hv1, hv2, hv3]
            by_cases h0 : i < t.Frequency.length
            · simp only [setAt, if_pos h0]
              by_cases h1 : i < t.Trace1.length
              · simp only [if_pos h1]
                by_cases h2 : i < t.Trace2.length
                · simp only [if_pos h2]
                  by_cases h3 : i < t.Trace3.length
                  · simp only [if_pos h3]
                    rw [if_pos ⟨h0, h1, h2, h3⟩]
                    have hw0 := hv0
                    have hw1 := hv1
                    have hw2 := hv2
                    have hw3 := hv3
                    simp only [List.getD_eq_getElem?_getD] at hw0 hw1 hw2 hw3
                    simp [writeRow, rowVal, hw0, hw1, hw2, hw3]
                  · simp only [if_neg h3]
                    rw [if_neg (fun hh => h3 hh.2.2.2)]
                · simp only [if_neg h2]
                  rw [if_neg (fun hh => h2 hh.2.2.1)]
              · simp only [if_neg h1]
                rw [if_neg (fun hh => h1 hh.2.1)]
            · simp only [setAt, if_neg h0]
              rw [if_neg (fun hh => h0 hh.1)]
  · rw [if_neg hlen, if_neg hlen]

theorem rowErr_none_of_wf (line : String) (i : Nat) (hw : wfRow line = true) :
    rowErr line i = none := by
  simp only [wfRow, Bool.and_eq_true, beq_iff_eq] at hw
  obtain ⟨⟨⟨⟨hlen, hs0⟩, hs1⟩, hs2⟩, hs3⟩ := hw
  obtain ⟨f0, hf0⟩ := Option.isSome_iff_exists.mp hs0
  obtain ⟨f1, hf1⟩ := Option.isSome_iff_exists.mp hs1
  obtain ⟨f2, hf2⟩ := Option.isSome_iff_exists.mp hs2
  obtain ⟨f3, hf3⟩ := Option.isSome_iff_exists.mp hs3
  simp only [rowErr]
  rw [if_pos hlen]
  simp only [hf0, hf1, hf2, hf3]

theorem wf_of_rowErr_none (line : String) (i : Nat) (h : rowErr line i = none) :
    wfRow line = true := by
  by_cases hlen : (splitComma line).length = 4
  · simp only [rowErr] at h
    rw [if_pos hlen] at h
    simp only [List.getD_eq_getElem?_getD] at h
    rcases hv0 : parseFloat (trimSpace ((splitComma line)[0]?.getD "")) with _ | f0
    · simp only [hv0] at h
      cases h
    · simp only [hv0] at h
      rcases hv1 : parseFloat (trimSpace ((splitComma line)[1]?.getD "")) with _ | f1
      · simp only [hv1] at h
        cases h
      · simp only [hv1] at h
        rcases hv2 : parseFloat (trimSpace ((splitComma line)[2]?.getD "")) with _ | f2
        · simp only [hv2] at h
          cases h
        · simp only [hv2] at h
          rcases hv3 : parseFloat (trimSpace ((splitComma line)[3]?.getD "")) with _ | f3
          · simp only [hv3] at h
            cases h
          · simp only [wfRow, Bool.and_eq_true, beq_iff_eq]
            refine ⟨⟨⟨⟨hlen, ?_⟩, ?_⟩, ?_⟩, ?_⟩
            · rw [List.getD_eq_getElem?_getD, hv0]; rfl
            · rw [List.getD_eq_getElem?_getD, hv1]; rfl
            · rw [List.getD_eq_getElem?_getD, hv2]; rfl
            · rw [List.getD_eq_getElem?_getD, hv3]; rfl
  · simp only [rowErr] at h
    rw [if_neg hlen] at h
    cases h

theorem dataLoop_cons (t : Trace) (i : Nat) (line : String) (rest : List String)
    (hw : wfRow line = true)
    (h0 : i < t.Frequency.length) (h1 : i < t.Trace1.length)
    (h2 : i < t.Trace2.length) (h3 : i < t.Trace3.length) :
    dataLoop t i (line :: rest) = dataLoop (writeRow t i line) (i + 1) rest := by
  rw [dataLoop_cons_eq, rowErr_none_of_wf line i hw]
  exact if_pos ⟨h0, h1, h2, h3⟩

theorem dataLoop_all_ok : ∀ (rows : List String) (t : Trace) (i : Nat),
    (∀ l ∈ rows, wfRow l = true) →
    i + rows.length ≤ t.Frequency.length → i + rows.length ≤ t.Trace1.length →
    i + rows.length ≤ t.Trace2.length → i + rows.length ≤ t.Trace3.length →
    dataLoop t i rows = .ok (writeRows t i rows)
  | [], t, i, _, _, _, _, _ => by simp [dataLoop, writeRows]
  | r :: rs, t, i, hwf, hb0, hb1, hb2, hb3 => by
    simp only [List.length_cons] at hb0 hb1 hb2 hb3
    rw [dataLoop_cons t i r rs (hwf r (by simp)) (by omega) (by omega) (by omega)
      (by omega)]
    rw [writeRows]
    exact dataLoop_all_ok rs (writeRow t i r) (i + 1)
      (fun l hl => hwf l (List.mem_cons_of_mem r hl))
      (by simp [writeRow]; omega) (by simp [writeRow]; omega)
      (by simp [writeRow]; omega) (by simp [writeRow]; omega)

theorem dataLoop_shape : ∀ (rows : List String) (t : Trace) (i : Nat) (t' : Trace),
    traceOf (dataLoop t i rows) = some t' →
    ∃ f a b c, t' = withSamples t f a b c ∧
      f.length = t.Frequency.length ∧ a.length = t.Trace1.length ∧
      b.length = t.Trace2.length ∧ c.length = t.Trace3.length
  | [], t, i, t', h => by
    simp only [dataLoop, traceOf, Option.some.injEq] at h
    exact ⟨t.Frequency, t.Trace1, t.Trace2, t.Trace3, h ▸ rfl, rfl, rfl, rfl, rfl⟩
  | r :: rs, t, i, t', h => by
    rw [dataLoop_cons_eq] at h
    rcases he : rowErr r i with _ | m
    · rw [he] at h
      by_cases hb : i < t.Frequency.length ∧ i < t.Trace1.length ∧
          i < t.Trace2.length ∧ i < t.Trace3.length
      · rw [if_pos hb] at h
        obtain ⟨f, a, b, c, ht', hf, ha, hb', hc⟩ :=
          dataLoop_shape rs (writeRow t i r) (i + 1) t' h
        refine ⟨f, a, b, c, ?_, ?_, ?_, ?_, ?_⟩ <;>
          simp_all [writeRow, withSamples]
      · rw [if_neg hb] at h
        simp [traceOf] at h
    · rw [he] at h
      simp only [traceOf, Option.some.injEq] at h
      exact ⟨t.Frequency, t.Trace1, t.Trace2, t.Trace3, h ▸ rfl, rfl, rfl, rfl, rfl⟩

theorem setAt_some (l : List Rat) (i : Nat) (v : Rat) (l' : List Rat)
    (h : setAt l i v = some l') : i < l.length ∧ l' = l.set i v := by
  unfold setAt at h
  split at h
  · injection h with h'
    exact ⟨by assumption, h'.symm⟩
  · cases h

theorem dataLoop_surplus : ∀ (rows : List String) (t : Trace) (i L : Nat),
    (∀ l ∈ rows, wfRow l = true) →
    t.Frequency.length = L → t.Trace1.length = L →
    t.Trace2.length = L → t.Trace3.length = L →
    i ≤ L → L < i + rows.length →
    dataLoop t i rows = .panic "runtime error: index out of range"
  | [], t, i, L, _, _, _, _, _, _, hlt => by simp at hlt; omega
  | r :: rs, t, i, L, hwf, e0, e1, e2, e3, hle, hlt => by
    rw [dataLoop_cons_eq]
    simp only [rowErr_none_of_wf r i (hwf r (by simp))]
    rcases Nat.lt_or_ge i L with hi | hi
    · rw [if_pos ⟨by omega, by omega, by omega, by omega⟩]
      exact dataLoop_surplus rs (writeRow t i r) (i + 1) L
        (fun l hl => hwf l (List.mem_cons_of_mem r hl))
        (by simp [writeRow, e0]) (by simp [writeRow, e1])
        (by simp [writeRow, e2]) (by simp [writeRow, e3])
        (by omega) (by simp at hlt ⊢; omega)
    · rw [if_neg (fun hh => absurd hh.1 (by omega))]

theorem dataLoop_ok_wf : ∀ (rows : List String) (t : Trace) (i : Nat) (t' : Trace),
    dataLoop t i rows = .ok t' → ∀ l ∈ rows, wfRow l = true
  | [], _, _, _, _ => by intro l hl; exact absurd hl (List.not_mem_nil l)
  | r :: rs, t, i, t', h => by
    rw [dataLoop_cons_eq] at h
    rcases he : rowErr r i with _ | m
    · simp only [he] at h
      by_cases hb : i < t.Frequency.length ∧ i < t.Trace1.length ∧
          i < t.Trace2.length ∧ i < t.Trace3.length
      · rw [if_pos hb] at h
        intro l hl
        rcases List.mem_cons.mp hl with rfl | hmem
        · exact wf_of_rowErr_none l i he
        · exact dataLoop_ok_wf rs _ (i + 1) t' h l hmem
      · rw [if_neg hb] at h
        cases h
    · simp only [he] at h
      cases h

theorem dataLoop_fail_inv : ∀ (rows : List String) (t : Trace) (i : Nat)
    (t' : Trace) (msg : String),
    dataLoop t i rows = .fail t' msg →
    ∃ j, j < rows.length ∧ (∀ l ∈ rows.take j, wfRow l = true) ∧
      (∀ idx, idx < j → i + idx < t.Frequency.length ∧ i + idx < t.Trace1.length ∧
        i + idx < t.Trace2.length ∧ i + idx < t.Trace3.length) ∧
      t' = writeRows t i (rows.take j) ∧
      rowErr (rows.getD j "") (i + j) = some msg
  | [], t, i, t', msg, h => by simp [dataLoop] at h
  | r :: rs, t, i, t', msg, h => by
    rw [dataLoop_cons_eq] at h
    rcases he : rowErr r i with _ | m
    · simp only [he] at h
      by_cases hb : i < t.Frequency.length ∧ i < t.Trace1.length ∧
          i < t.Trace2.length ∧ i < t.Trace3.length
      · rw [if_pos hb] at h
        obtain ⟨j, hjlen, hjwf, hjbnd, ht', herr⟩ :=
          dataLoop_fail_inv rs _ (i + 1) t' msg h
        refine ⟨j + 1, by simp only [List.length_cons]; omega, ?_, ?_, ?_, ?_⟩
        · intro l hl
          rw [List.take_succ_cons] at hl
          rcases List.mem_cons.mp hl with rfl | hmem
          · exact wf_of_rowErr_none l i he
          · exact hjwf l hmem
        · intro idx hidx
          rcases idx with _ | idx
          · simpa using hb
          · have hbd := hjbnd idx (by omega)
            simp only [writeRow, List.length_set] at hbd
            refine ⟨?_, ?_, ?_, ?_⟩ <;> omega
        · rw [List.take_succ_cons, writeRows]
          exact ht'
        · have harith : i + (j + 1) = (i + 1) + j := by omega
          rw [List.getD_cons_succ, harith]
          exact herr
      · rw [if_neg hb] at h
        cases h
    · simp only [he] at h
      injection h with ht hm
      refine ⟨0, by simp, by simp, by omega, ?_, ?_⟩
      · simp [writeRows, ht]
      · simp [he, hm]

theorem getD_set_self (l : List Rat) (i : Nat) (v : Rat) (h : i < l.length) :
    (l.set i v).getD i 0 = v := by
  simp [List.getD_eq_getElem?_getD, List.getElem?_set, h]

theorem getD_set_ne (l : List Rat) (i k : Nat) (v : Rat) (h : i ≠ k) :
    (l.set i v).getD k 0 = l.getD k 0 := by
  simp [List.getD_eq_getElem?_getD, List.getElem?_set, h]

/-- A data line with no content parses to the zero value in every
column, so 0 is also the `getD` default for parsed-column lookups. -/
theorem rowVal_empty (c : Nat) : rowVal "" c = 0 := by
  cases c <;> rfl

theorem getD_map_rowVal (rows : List String) (c j : Nat) :
    (rows.map (fun r => rowVal r c)).getD j 0 = rowVal (rows.getD j "") c := by
  calc (rows.map (fun r => rowVal r c)).getD j 0
      = (rows.map (fun r => rowVal r c)).getD j (rowVal "" c) := by rw [rowVal_empty]
    _ = rowVal (rows.getD j "") c := List.getD_map rows "" (fun r => rowVal r c)

/-- Sequential in-place writes of a list of values starting at index
`i`: the list-level effect of the data loop on one sample slice. -/
def setSeq (l : List Rat) (i : Nat) : List Rat → List Rat
  | [] => l
  | v :: vs => setSeq (l.set i v) (i + 1) vs

theorem setSeq_length : ∀ (vs l : List Rat) (i : Nat),
    (setSeq l i vs).length = l.length
  | [], _, _ => rfl
  | v :: vs, l, i => by
    simp only [setSeq]
    rw [setSeq_length vs, List.length_set]

theorem setSeq_getD : ∀ (vs l : List Rat) (i k : Nat),
    i + vs.length ≤ l.length →
    (setSeq l i vs).getD k 0 =
      if i ≤ k ∧ k < i + vs.length then vs.getD (k - i) 0 else l.getD k 0
  | [], l, i, k, _ => by
    simp only [setSeq]
    rw [if_neg (by simp only [List.length_nil]; omega)]
  | v :: vs, l, i, k, hb => by
    simp only [List.length_cons] at hb
    simp only [setSeq]
    rw [setSeq_getD vs (l.set i v) (i + 1) k (by rw [List.length_set]; omega)]
    by_cases hc : i + 1 ≤ k ∧ k < i + 1 + vs.length
    · rw [if_pos hc, if_pos (by simp only [List.length_cons]; omega)]
      have hki : k - i = (k - (i + 1)) + 1 := by omega
      rw [hki, List.getD_cons_succ]
    · rw [if_neg hc]
      by_cases hk : k = i
      · subst hk
        rw [if_pos (by simp only [List.length_cons]; omega)]
        rw [getD_set_self _ _ _ (by omega), Nat.sub_self]
        rfl
      · rw [if_neg (by simp only [List.length_cons]; omega),
          getD_set_ne _ _ _ _ (fun he => hk he.symm)]

theorem writeRows_freq : ∀ (rows : List String) (t : Trace) (i : Nat),
    (writeRows t i rows).Frequency = setSeq t.Frequency i (rows.map (fun r => rowVal r 0))
  | [], _, _ => rfl
  | r :: rs, t, i => by
    simp only [writeRows, List.map_cons, setSeq]
    rw [writeRows_freq rs]
    rfl

theorem writeRows_t1 : ∀ (rows : List String) (t : Trace) (i : Nat),
    (writeRows t i rows).Trace1 = setSeq t.Trace1 i (rows.map (fun r => rowVal r 1))
  | [], _, _ => rfl
  | r :: rs, t, i => by
    simp only [writeRows, List.map_cons, setSeq]
    rw [writeRows_t1 rs]
    rfl

theorem writeRows_t2 : ∀ (rows : List String) (t : Trace) (i : Nat),
    (writeRows t i rows).Trace2 = setSeq t.Trace2 i (rows.map (fun r => rowVal r 2))
  | [], _, _ => rfl
  | r :: rs, t, i => by
    simp only [writeRows, List.map_cons, setSeq]
    rw [writeRows_t2 rs]
    rfl

theorem writeRows_t3 : ∀ (rows : List String) (t : Trace) (i : Nat),
    (writeRows t i rows).Trace3 = setSeq t.Trace3 i (rows.map (fun r => rowVal r 3))
  | [], _, _ => rfl
  | r :: rs, t, i => by
    simp only [writeRows, List.map_cons, setSeq]
    rw [writeRows_t3 rs]
    rfl

/-- The trace just after the four `make([]float64, NumPoints)` calls:
the full parsed header and zero-filled sample slices. -/
def allocTrace (lines : List String) : Trace :=
  { hdrTrace lines 13 with
    Frequency := List.replicate (hdrTrace lines 13).NumPoints.toNat 0
    Trace1 := List.replicate (hdrTrace lines 13).NumPoints.toNat 0
    Trace2 := List.replicate (hdrTrace lines 13).NumPoints.toNat 0
    Trace3 := List.replicate (hdrTrace lines 13).NumPoints.toNat 0 }

theorem allocTrace_lens (lines : List String) :
    (allocTrace lines).Frequency.length = (hdrTrace lines 13).NumPoints.toNat ∧
    (allocTrace lines).Trace1.length = (hdrTrace lines 13).NumPoints.toNat ∧
    (allocTrace lines).Trace2.length = (hdrTrace lines 13).NumPoints.toNat ∧
    (allocTrace lines).Trace3.length = (hdrTrace lines 13).NumPoints.toNat := by
  refine ⟨?_, ?_, ?_, ?_⟩ <;> exact List.length_replicate _ _

theorem readDataOn_nonneg (t : Trace) (lines : List String)
    (h : ¬t.NumPoints < 0) :
    readDataOn t lines = dataLoop { t with
      Frequency := List.replicate t.NumPoints.toNat 0
      Trace1 := List.replicate t.NumPoints.toNat 0
      Trace2 := List.replicate t.NumPoints.toNat 0
      Trace3 := List.replicate t.NumPoints.toNat 0 } 0 lines := by
  simp only [readDataOn]
  rw [if_neg h]

/-! ### Preservation of already-set fields through the later stages -/

theorem readRatLine_pres (pfx errName : String) (set : Trace → Rat → Trace)
    (next : Trace → List String → Result) (P : Trace → Prop)
    (hset : ∀ u v, P u → P (set u v))
    (hnext : ∀ u l u', P u → traceOf (next u l) = some u' → P u') :
    ∀ u l u', P u → traceOf (readRatLine pfx errName set next u l) = some u' → P u' := by
  intro u l u' hP h
  by_cases hc : (splitComma (l.headD "")).length = 3
  · rcases hv : parseFloat ((splitComma (l.headD "")).getD 1 "") with _ | v
    · rw [readRatLine_failParse _ _ _ _ _ _ hc hv] at h
      simp only [traceOf, Option.some.injEq] at h
      exact h ▸ hP
    · rw [readRatLine_step _ _ _ _ _ _ v hc hv] at h
      exact hnext _ _ _ (hset _ _ hP) h
  · rw [readRatLine_failCount _ _ _ _ _ _ hc] at h
    simp only [traceOf, Option.some.injEq] at h
    exact h ▸ hP

theorem pres_data (t : Trace) (lines : List String) (t' : Trace)
    (h : traceOf (readDataOn t lines) = some t') :
    t'.SerialNum = t.SerialNum ∧ t'.FreqUnits = t.FreqUnits ∧
    t'.Trace1Units = t.Trace1Units ∧ t'.Trace2Units = t.Trace2Units ∧
    t'.Trace3Units = t.Trace3Units := by
  simp only [readDataOn] at h
  split at h
  · simp [traceOf] at h
  · obtain ⟨f, a, b, c, ht', _, _, _, _⟩ := dataLoop_shape _ _ _ _ h
    subst ht'
    simp [withSamples]

theorem pres_units (t : Trace) (lines : List String) (t' : Trace)
    (h : traceOf (readUnitsOn t lines) = some t') : t'.SerialNum = t.SerialNum := by
  simp only [readUnitsOn] at h
  split at h
  · have := (pres_data _ _ _ h).1
    simpa using this
  · simp only [traceOf, Option.some.injEq] at h
    exact h ▸ rfl

theorem pres_labels (t : Trace) (lines : List String) (t' : Trace)
    (h : traceOf (readLabelsOn t lines) = some t') : t'.SerialNum = t.SerialNum := by
  simp only [readLabelsOn] at h
  split at h
  · have := pres_units _ _ _ h
    simpa using this
  · simp only [traceOf, Option.some.injEq] at h
    exact h ▸ rfl

theorem pres_nump (t : Trace) (lines : List String) (t' : Trace)
    (h : traceOf (readNumPointsOn t lines) = some t') : t'.SerialNum = t.SerialNum := by
  simp only [readNumPointsOn] at h
  split at h
  · simp only [traceOf, Option.some.injEq] at h
    exact h ▸ rfl
  · split at h
    · simp only [traceOf, Option.some.injEq] at h
      exact h ▸ rfl
    · have := pres_labels _ _ _ h
      simpa using this

theorem serial_from10 (u : Trace) (l : List String) (u' : Trace)
    (h : traceOf (readSweepTimeOn u l) = some u') : u'.SerialNum = u.SerialNum := by
  revert h
  exact fun h => readRatLine_pres _ _ _ _ (fun w => w.SerialNum = u.SerialNum)
    (fun w v hw => by simpa using hw)
    (fun w l' w' hw hh => (pres_nump w l' w' hh).trans hw) u l u' rfl h

theorem serial_from9 (u : Trace) (l : List String) (u' : Trace)
    (h : traceOf (readRefLevelOn u l) = some u') : u'.SerialNum = u.SerialNum :=
  readRatLine_pres _ _ _ _ (fun w => w.SerialNum = u.SerialNum)
    (fun w v hw => by simpa using hw)
    (fun w l' w' hw hh => (serial_from10 w l' w' hh).trans hw) u l u' rfl h

theorem serial_from8 (u : Trace) (l : List String) (u' : Trace)
    (h : traceOf (readVBWOn u l) = some u') : u'.SerialNum = u.SerialNum :=
  readRatLine_pres _ _ _ _ (fun w => w.SerialNum = u.SerialNum)
    (fun w v hw => by simpa using hw)
    (fun w l' w' hw hh => (serial_from9 w l' w' hh).trans hw) u l u' rfl h

theorem serial_from7 (u : Trace) (l : List String) (u' : Trace)
    (h : traceOf (readRBWOn u l) = some u') : u'.SerialNum = u.SerialNum :=
  readRatLine_pres _ _ _ _ (fun w => w.SerialNum = u.SerialNum)
    (fun w v hw => by simpa using hw)
    (fun w l' w' hw hh => (serial_from8 w l' w' hh).trans hw) u l u' rfl h

theorem serial_from6 (u : Trace) (l : List String) (u' : Trace)
    (h : traceOf (readSpanOn u l) = some u') : u'.SerialNum = u.SerialNum :=
  readRatLine_pres _ _ _ _ (fun w => w.SerialNum = u.SerialNum)
    (fun w v hw => by simpa using hw)
    (fun w l' w' hw hh => (serial_from7 w l' w' hh).trans hw) u l u' rfl h

theorem serial_from5 (u : Trace) (l : List String) (u' : Trace)
    (h : traceOf (readCenterFreqOn u l) = some u') : u'.SerialNum = u.SerialNum :=
  readRatLine_pres _ _ _ _ (fun w => w.SerialNum = u.SerialNum)
    (fun w v hw => by simpa using hw)
    (fun w l' w' hw hh => (serial_from6 w l' w' hh).trans hw) u l u' rfl h

/-! ### Inversion: a successful parse reaches the data stage -/

theorem readStrLine_ok_next (pfx : String) (set : Trace → String → Trace)
    (next : Trace → List String → Result) (t : Trace) (lines : List String)
    (t' : Trace) (h : readStrLine pfx set next t lines = .ok t') :
    ∃ u m, next u m = .ok t' := by
  by_cases hc : (splitComma (lines.headD "")).length = 2
  · rw [readStrLine_step _ _ _ _ _ hc] at h
    exact ⟨_, _, h⟩
  · rw [readStrLine_fail _ _ _ _ _ hc] at h
    cases h

theorem readRatLine_ok_next (pfx errName : String) (set : Trace → Rat → Trace)
    (next : Trace → List String → Result) (t : Trace) (lines : List String)
    (t' : Trace) (h : readRatLine pfx errName set next t lines = .ok t') :
    ∃ u m, next u m = .ok t' := by
  by_cases hc : (splitComma (lines.headD "")).length = 3
  · rcases hv : parseFloat ((splitComma (lines.headD "")).getD 1 "") with _ | v
    · rw [readRatLine_failParse _ _ _ _ _ _ hc hv] at h
      cases h
    · rw [readRatLine_step _ _ _ _ _ _ v hc hv] at h
      exact ⟨_, _, h⟩
  · rw [readRatLine_failCount _ _ _ _ _ _ hc] at h
    cases h

theorem readNumPointsOn_ok_next (t : Trace) (lines : List String) (t' : Trace)
    (h : readNumPointsOn t lines = .ok t') : ∃ u m, readLabelsOn u m = .ok t' := by
  simp only [readNumPointsOn] at h
  split at h
  · cases h
  · split at h
    · cases h
    · exact ⟨_, _, h⟩

theorem readLabelsOn_ok_next (t : Trace) (lines : List String) (t' : Trace)
    (h : readLabelsOn t lines = .ok t') : ∃ u m, readUnitsOn u m = .ok t' := by
  simp only [readLabelsOn] at h
  split at h
  · exact ⟨_, _, h⟩
  · cases h

theorem readUnitsOn_ok_next (t : Trace) (lines : List String) (t' : Trace)
    (h : readUnitsOn t lines = .ok t') : ∃ u m, readDataOn u m = .ok t' := by
  simp only [readUnitsOn] at h
  split at h
  · exact ⟨_, _, h⟩
  · cases h

theorem readDataOn_ok_lens (t : Trace) (lines : List String) (t' : Trace)
    (h : readDataOn t lines = .ok t') :
    (t'.Frequency.length : Int) = t'.NumPoints ∧
    (t'.Trace1.length : Int) = t'.NumPoints ∧
    (t'.Trace2.length : Int) = t'.NumPoints ∧
    (t'.Trace3.length : Int) = t'.NumPoints := by
  simp only [readDataOn] at h
  split at h
  · cases h
  · obtain ⟨f, a, b, c, ht', hf, ha, hb, hc⟩ := dataLoop_shape _ _ _ _ (by rw [h]; rfl)
    subst ht'
    simp only [withSamples, List.length_replicate] at hf ha hb hc ⊢
    rename_i hneg
    have : (t.NumPoints.toNat : Int) = t.NumPoints := Int.toNat_of_nonneg (by omega)
    refine ⟨?_, ?_, ?_, ?_⟩ <;> simp_all

/-! ### The exact failure result at each parsing step -/

/-- The message produced when header line `k` has the wrong number of
comma-separated fields. -/
def hdrFailMsg (lines : List String) (k : Nat) : String :=
  "error in " ++ hdrDesc k ++ " line: " ++ ("wrong number of entries / got " ++
    toString (splitComma (nthLine lines (k - 1))).length ++ " / expected " ++
    toString (headerExpected k))

theorem hdrCountFail (lines : List String) (j : Nat) (h1 : 1 ≤ j) (h2 : j ≤ 11)
    (hok : stepsOK lines (j - 1) = true)
    (hbad : (splitComma (nthLine lines (j - 1))).length ≠ headerExpected j) :
    ReadCSVFile lines = .fail (hdrTrace lines (j - 1)) (hdrFailMsg lines j) := by
  interval_cases j
  · rw [ReadCSVFile, readStrLine_fail _ _ _ _ _
      (by rw [headD_eq_nthLine]; simpa [headerExpected] using hbad)]
    rw [headD_eq_nthLine]
    simp [hdrTrace, hdrFailMsg, hdrDesc, headerExpected]
  · rw [upTo1 lines hok]
    simp only [readTitleOn]
    rw [readStrLine_fail _ _ _ _ _
      (by rw [headD_drop]; simpa [headerExpected] using hbad)]
    rw [headD_drop]
    simp [hdrFailMsg, hdrDesc, headerExpected]
  · rw [upTo2 lines hok]
    simp only [readModelOn]
    rw [readStrLine_fail _ _ _ _ _
      (by rw [headD_drop]; simpa [headerExpected] using hbad)]
    rw [headD_drop]
    simp [hdrFailMsg, hdrDesc, headerExpected]
  · rw [upTo3 lines hok]
    simp only [readSerialOn]
    rw [readStrLine_fail _ _ _ _ _
      (by rw [headD_drop]; simpa [headerExpected] using hbad)]
    rw [headD_drop]
    simp [hdrFailMsg, hdrDesc, headerExpected]
  · rw [upTo4 lines hok]
    simp only [readCenterFreqOn]
    rw [readRatLine_failCount _ _ _ _ _ _
      (by rw [headD_drop]; simpa [headerExpected] using hbad)]
    rw [headD_drop]
    simp [hdrFailMsg, hdrDesc, headerExpected]
  · rw [upTo5 lines hok]
    simp only [readSpanOn]
    rw [readRatLine_failCount _ _ _ _ _ _
      (by rw [headD_drop]; simpa [headerExpected] using hbad)]
    rw [headD_drop]
    simp [hdrFailMsg, hdrDesc, headerExpected]
  · rw [upTo6 lines hok]
    simp only [readRBWOn]
    rw [readRatLine_failCount _ _ _ _ _ _
      (by rw [headD_drop]; simpa [headerExpected] using hbad)]
    rw [headD_drop]
    simp [hdrFailMsg, hdrDesc, headerExpected]
  · rw [upTo7 lines hok]
    simp only [readVBWOn]
    rw [readRatLine_failCount _ _ _ _ _ _
      (by rw [headD_drop]; simpa [headerExpected] using hbad)]
    rw [headD_drop]
    simp [hdrFailMsg, hdrDesc, headerExpected]
  · rw [upTo8 lines hok]
    simp only [readRefLevelOn]
    rw [readRatLine_failCount _ _ _ _ _ _
      (by rw [headD_drop]; simpa [headerExpected] using hbad)]
    rw [headD_drop]
    simp [hdrFailMsg, hdrDesc, headerExpected]
  · rw [upTo9 lines hok]
    simp only [readSweepTimeOn]
    rw [readRatLine_failCount _ _ _ _ _ _
      (by rw [headD_drop]; simpa [headerExpected] using hbad)]
    rw [headD_drop]
    simp [hdrFailMsg, hdrDesc, headerExpected]
  · rw [upTo10 lines hok]
    simp only [readNumPointsOn]
    rw [gls_fail _ 2 (by rw [headD_drop]; simpa [headerExpected] using hbad)]
    rw [headD_drop]
    simp [hdrFailMsg, hdrDesc, headerExpected]

theorem hdrFloatFail (lines : List String) (j : Nat) (h1 : 5 ≤ j) (h2 : j ≤ 10)
    (hok : stepsOK lines (j - 1) = true)
    (hlen : (splitComma (nthLine lines (j - 1))).length = 3)
    (hnone : parseFloat (col lines (j - 1) 1) = none) :
    ReadCSVFile lines = .fail (hdrTrace lines (j - 1))
      ("error parsing " ++ hdrErrName j ++ ": " ++
        parseFloatErrMsg (col lines (j - 1) 1)) := by
  interval_cases j
  · rw [upTo4 lines hok]
    simp only [readCenterFreqOn]
    rw [readRatLine_failParse _ _ _ _ _ _ (by rw [headD_drop]; exact hlen)
      (by rw [headD_drop]; exact hnone)]
    rw [headD_drop]
    simp [hdrErrName, col]
  · rw [upTo5 lines hok]
    simp only [readSpanOn]
    rw [readRatLine_failParse _ _ _ _ _ _ (by rw [headD_drop]; exact hlen)
      (by rw [headD_drop]; exact hnone)]
    rw [headD_drop]
    simp [hdrErrName, col]
  · rw [upTo6 lines hok]
    simp only [readRBWOn]
    rw [readRatLine_failParse _ _ _ _ _ _ (by rw [headD_drop]; exact hlen)
      (by rw [headD_drop]; exact hnone)]
    rw [headD_drop]
    simp [hdrErrName, col]
  · rw [upTo7 lines hok]
    simp only [readVBWOn]
    rw [readRatLine_failParse _ _ _ _ _ _ (by rw [headD_drop]; exact hlen)
      (by rw [headD_drop]; exact hnone)]
    rw [headD_drop]
    simp [hdrErrName, col]
  · rw [upTo8 lines hok]
    simp only [readRefLevelOn]
    rw [readRatLine_failParse _ _ _ _ _ _ (by rw [headD_drop]; exact hlen)
      (by rw [headD_drop]; exact hnone)]
    rw [headD_drop]
    simp [hdrErrName, col]
  · rw [upTo9 lines hok]
    simp only [readSweepTimeOn]
    rw [readRatLine_failParse _ _ _ _ _ _ (by rw [headD_drop]; exact hlen)
      (by rw [headD_drop]; exact hnone)]
    rw [headD_drop]
    simp [hdrErrName, col]

theorem numPointsAtoiFail (lines : List String)
    (hok : stepsOK lines 10 = true)
    (hlen : (splitComma (nthLine lines 10)).length = 2)
    (hnone : atoi (col lines 10 1) = none) :
    ReadCSVFile lines = .fail (hdrTrace lines 10)
      ("error parsing num points: " ++ atoiErrMsg (col lines 10 1)) := by
  rw [upTo10 lines hok]
  simp only [readNumPointsOn]
  rw [gls_ok _ 2 (by rw [headD_drop]; exact hlen)]
  have hnone' : atoi ((splitComma ((lines.drop 10).headD "")).getD 1 "") = none := by
    rw [headD_drop]; exact hnone
  simp only [hnone']
  rw [headD_drop]
  simp [col]

theorem labelsFail (lines : List String)
    (hok : stepsOK lines 11 = true)
    (hbad : (splitComma (nthLine lines 13)).length ≠ 4) :
    ReadCSVFile lines = .fail (hdrTrace lines 11)
      ("error in trace label line: " ++ nthLine lines 13) := by
  rw [upTo11 lines hok]
  simp only [readLabelsOn]
  rw [tail_drop', tail_drop', headD_drop]
  simp only [Nat.reduceAdd]
  rw [if_neg hbad]

theorem unitsFail (lines : List String)
    (hok : stepsOK lines 12 = true)
    (hbad : (splitComma (nthLine lines 14)).length ≠ 4) :
    ReadCSVFile lines = .fail (hdrTrace lines 12)
      ("error in trace units line: " ++ nthLine lines 14) := by
  rw [upTo12 lines hok]
  simp only [readUnitsOn]
  rw [headD_drop]
  rw [if_neg hbad]

theorem stepsOK_build (lines : List String) (k : Nat)
    (h1 : stepsOK lines k = true) (h2 : stepCond lines (k + 1) = true) :
    stepsOK lines (k + 1) = true := by
  rw [show stepsOK lines (k + 1) = (stepsOK lines k && stepCond lines (k + 1)) from
    rfl, Bool.and_eq_true]
  exact ⟨h1, h2⟩

/-- The shape of every value-returned failure of `ReadCSVFile`: the
failure happens at the first bad step; the carried trace holds exactly
the fields parsed by the completed earlier steps (all later fields
still at their zero values, data slices filled up to the failing row),
and the message is the one of the failing step. -/
def FailShape (lines : List String) (t : Trace) (msg : String) : Prop :=
  (∃ k, 1 ≤ k ∧ k ≤ 11 ∧ stepsOK lines (k - 1) = true ∧
    (splitComma (nthLine lines (k - 1))).length ≠ headerExpected k ∧
    t = hdrTrace lines (k - 1) ∧ msg = hdrFailMsg lines k) ∨
  (∃ k, 5 ≤ k ∧ k ≤ 10 ∧ stepsOK lines (k - 1) = true ∧
    (splitComma (nthLine lines (k - 1))).length = 3 ∧
    parseFloat (col lines (k - 1) 1) = none ∧
    t = hdrTrace lines (k - 1) ∧
    msg = "error parsing " ++ hdrErrName k ++ ": " ++
      parseFloatErrMsg (col lines (k - 1) 1)) ∨
  (stepsOK lines 10 = true ∧ (splitComma (nthLine lines 10)).length = 2 ∧
    atoi (col lines 10 1) = none ∧ t = hdrTrace lines 10 ∧
    msg = "error parsing num points: " ++ atoiErrMsg (col lines 10 1)) ∨
  (stepsOK lines 11 = true ∧ (splitComma (nthLine lines 13)).length ≠ 4 ∧
    t = hdrTrace lines 11 ∧ msg = "error in trace label line: " ++ nthLine lines 13) ∨
  (stepsOK lines 12 = true ∧ (splitComma (nthLine lines 14)).length ≠ 4 ∧
    t = hdrTrace lines 12 ∧ msg = "error in trace units line: " ++ nthLine lines 14) ∨
  (∃ j, stepsOK lines 13 = true ∧ 0 ≤ (hdrTrace lines 13).NumPoints ∧
    j < (lines.drop 15).length ∧
    (∀ l ∈ (lines.drop 15).take j, wfRow l = true) ∧
    j ≤ (hdrTrace lines 13).NumPoints.toNat ∧
    t = writeRows (allocTrace lines) 0 ((lines.drop 15).take j) ∧
    rowErr (nthLine lines (15 + j)) j = some msg)

theorem readCSV_fail_shape (lines : List String) (t : Trace) (msg : String)
    (h : ReadCSVFile lines = .fail t msg) : FailShape lines t msg := by
  by_cases c1 : (splitComma (nthLine lines 0)).length = 2
  case neg =>
    rw [hdrCountFail lines 1 (by norm_num) (by norm_num) rfl
      (by simpa [headerExpected] using c1)] at h
    injection h with hT hM
    exact Or.inl ⟨1, by norm_num, by norm_num, rfl,
      by simpa [headerExpected] using c1, hT.symm, hM.symm⟩
  have s1 : stepsOK lines 1 = true := stepsOK_build lines 0 rfl (by simp [stepCond, c1])
  by_cases c2 : (splitComma (nthLine lines 1)).length = 2
  case neg =>
    rw [hdrCountFail lines 2 (by norm_num) (by norm_num) s1
      (by simpa [headerExpected] using c2)] at h
    injection h with hT hM
    exact Or.inl ⟨2, by norm_num, by norm_num, s1,
      by simpa [headerExpected] using c2, hT.symm, hM.symm⟩
  have s2 : stepsOK lines 2 = true := stepsOK_build lines 1 s1 (by simp [stepCond, c2])
  by_cases c3 : (splitComma (nthLine lines 2)).length = 2
  case neg =>
    rw [hdrCountFail lines 3 (by norm_num) (by norm_num) s2
      (by simpa [headerExpected] using c3)] at h
    injection h with hT hM
    exact Or.inl ⟨3, by norm_num, by norm_num, s2,
      by simpa [headerExpected] using c3, hT.symm, hM.symm⟩
  have s3 : stepsOK lines 3 = true := stepsOK_build lines 2 s2 (by simp [stepCond, c3])
  by_cases c4 : (splitComma (nthLine lines 3)).length = 2
  case neg =>
    rw [hdrCountFail lines 4 (by norm_num) (by norm_num) s3
      (by simpa [headerExpected] using c4)] at h
    injection h with hT hM
    exact Or.inl ⟨4, by norm_num, by norm_num, s3,
      by simpa [headerExpected] using c4, hT.symm, hM.symm⟩
  have s4 : stepsOK lines 4 = true := stepsOK_build lines 3 s3 (by simp [stepCond, c4])
  by_cases c5 : (splitComma (nthLine lines 4)).length = 3
  case neg =>
    rw [hdrCountFail lines 5 (by norm_num) (by norm_num) s4
      (by simpa [headerExpected] using c5)] at h
    injection h with hT hM
    exact Or.inl ⟨5, by norm_num, by norm_num, s4,
      by simpa [headerExpected] using c5, hT.symm, hM.symm⟩
  rcases hv5 : parseFloat (col lines 4 1) with _ | v5
  · rw [hdrFloatFail lines 5 (by norm_num) (by norm_num) s4 c5 hv5] at h
    injection h with hT hM
    exact Or.inr (Or.inl ⟨5, by norm_num, by norm_num, s4, c5, hv5, hT.symm, hM.symm⟩)
  have s5 : stepsOK lines 5 = true := stepsOK_build lines 4 s4 (by simp [stepCond, c5, hv5])
  by_cases c6 : (splitComma (nthLine lines 5)).length = 3
  case neg =>
    rw [hdrCountFail lines 6 (by norm_num) (by norm_num) s5
      (by simpa [headerExpected] using c6)] at h
    injection h with hT hM
    exact Or.inl ⟨6, by norm_num, by norm_num, s5,
      by simpa [headerExpected] using c6, hT.symm, hM.symm⟩
  rcases hv6 : parseFloat (col lines 5 1) with _ | v6
  · rw [hdrFloatFail lines 6 (by norm_num) (by norm_num) s5 c6 hv6] at h
    injection h with hT hM
    exact Or.inr (Or.inl ⟨6, by norm_num, by norm_num, s5, c6, hv6, hT.symm, hM.symm⟩)
  have s6 : stepsOK lines 6 = true := stepsOK_build lines 5 s5 (by simp [stepCond, c6, hv6])
  by_cases c7 : (splitComma (nthLine lines 6)).length = 3
  case neg =>
    rw [hdrCountFail lines 7 (by norm_num) (by norm_num) s6
      (by simpa [headerExpected] using c7)] at h
    injection h with hT hM
    exact Or.inl ⟨7, by norm_num, by norm_num, s6,
      by simpa [headerExpected] using c7, hT.symm, hM.symm⟩
  rcases hv7 : parseFloat (col lines 6 1) with _ | v7
  · rw [hdrFloatFail lines 7 (by norm_num) (by norm_num) s6 c7 hv7] at h
    injection h with hT hM
    exact Or.inr (Or.inl ⟨7, by norm_num, by norm_num, s6, c7, hv7, hT.symm, hM.symm⟩)
  have s7 : stepsOK lines 7 = true := stepsOK_build lines 6 s6 (by simp [stepCond, c7, hv7])
  by_cases c8 : (splitComma (nthLine lines 7)).length = 3
  case neg =>
    rw [hdrCountFail lines 8 (by norm_num) (by norm_num) s7
      (by simpa [headerExpected] using c8)] at h
    injection h with hT hM
    exact Or.inl ⟨8, by norm_num, by norm_num, s7,
      by simpa [headerExpected] using c8, hT.symm, hM.symm⟩
  rcases hv8 : parseFloat (col lines 7 1) with _ | v8
  · rw [hdrFloatFail lines 8 (by norm_num) (by norm_num) s7 c8 hv8] at h
    injection h with hT hM
    exact Or.inr (Or.inl ⟨8, by norm_num, by norm_num, s7, c8, hv8, hT.symm, hM.symm⟩)
  have s8 : stepsOK lines 8 = true := stepsOK_build lines 7 s7 (by simp [stepCond, c8, hv8])
  by_cases c9 : (splitComma (nthLine lines 8)).length = 3
  case neg =>
    rw [hdrCountFail lines 9 (by norm_num) (by norm_num) s8
      (by simpa [headerExpected] using c9)] at h
    injection h with hT hM
    exact Or.inl ⟨9, by norm_num, by norm_num, s8,
      by simpa [headerExpected] using c9, hT.symm, hM.symm⟩
  rcases hv9 : parseFloat (col lines 8 1) with _ | v9
  · rw [hdrFloatFail lines 9 (by norm_num) (by norm_num) s8 c9 hv9] at h
    injection h with hT hM
    exact Or.inr (Or.inl ⟨9, by norm_num, by norm_num, s8, c9, hv9, hT.symm, hM.symm⟩)
  have s9 : stepsOK lines 9 = true := stepsOK_build lines 8 s8 (by simp [stepCond, c9, hv9])
  by_cases c10 : (splitComma (nthLine lines 9)).length = 3
  case neg =>
    rw [hdrCountFail lines 10 (by norm_num) (by norm_num) s9
      (by simpa [headerExpected] using c10)] at h
    injection h with hT hM
    exact Or.inl ⟨10, by norm_num, by norm_num, s9,
      by simpa [headerExpected] using c10, hT.symm, hM.symm⟩
  rcases hv10 : parseFloat (col lines 9 1) with _ | v10
  · rw [hdrFloatFail lines 10 (by norm_num) (by norm_num) s9 c10 hv10] at h
    injection h with hT hM
    exact Or.inr (Or.inl ⟨10, by norm_num, by norm_num, s9, c10, hv10, hT.symm, hM.symm⟩)
  have s10 : stepsOK lines 10 = true :=
    stepsOK_build lines 9 s9 (by simp [stepCond, c10, hv10])
  by_cases c11 : (splitComma (nthLine lines 10)).length = 2
  case neg =>
    rw [hdrCountFail lines 11 (by norm_num) (by norm_num) s10
      (by simpa [headerExpected] using c11)] at h
    injection h with hT hM
    exact Or.inl ⟨11, by norm_num, by norm_num, s10,
      by simpa [headerExpected] using c11, hT.symm, hM.symm⟩
  rcases hv11 : atoi (col lines 10 1) with _ | v11
  · rw [numPointsAtoiFail lines s10 c11 hv11] at h
    injection h with hT hM
    exact Or.inr (Or.inr (Or.inl ⟨s10, c11, hv11, hT.symm, hM.symm⟩))
  have s11 : stepsOK lines 11 = true :=
    stepsOK_build lines 10 s10 (by simp [stepCond, c11, hv11])
  by_cases c12 : (splitComma (nthLine lines 13)).length = 4
  case neg =>
    rw [labelsFail lines s11 c12] at h
    injection h with hT hM
    exact Or.inr (Or.inr (Or.inr (Or.inl ⟨s11, c12, hT.symm, hM.symm⟩)))
  have s12 : stepsOK lines 12 = true :=
    stepsOK_build lines 11 s11 (by simp [stepCond, c12])
  by_cases c13 : (splitComma (nthLine lines 14)).length = 4
  case neg =>
    rw [unitsFail lines s12 c13] at h
    injection h with hT hM
    exact Or.inr (Or.inr (Or.inr (Or.inr (Or.inl ⟨s12, c13, hT.symm, hM.symm⟩))))
  have s13 : stepsOK lines 13 = true :=
    stepsOK_build lines 12 s12 (by simp [stepCond, c13])
  rw [upTo13 lines s13] at h
  simp only [readDataOn] at h
  by_cases hneg : (hdrTrace lines 13).NumPoints < 0
  case pos =>
    rw [if_pos hneg] at h
    cases h
  rw [if_neg hneg] at h
  have h' : dataLoop (allocTrace lines) 0 (lines.drop 15) = .fail t msg := h
  obtain ⟨j, hjlen, hjwf, hjbnd, ht', herr⟩ := dataLoop_fail_inv _ _ _ _ _ h'
  refine Or.inr (Or.inr (Or.inr (Or.inr (Or.inr
    ⟨j, s13, by omega, hjlen, hjwf, ?_, ht', ?_⟩))))
  · rcases j with _ | jj
    · exact Nat.zero_le _
    · have hb := (hjbnd jj (by omega)).1
      simp only [allocTrace, List.length_replicate] at hb
      omega
  · have hx : (lines.drop 15).getD j "" = nthLine lines (15 + j) := nthLine_drop lines 15 j
    rw [hx, Nat.zero_add] at herr
    exact herr

/-! ### Remaining support lemmas -/

theorem getD_replicate_zero (n k : Nat) :
    (List.replicate n (0 : Rat)).getD k 0 = 0 := by
  rw [List.getD_eq_getElem?_getD, List.getElem?_replicate]
  split <;> rfl

theorem dataLoop_reach : ∀ (j : Nat) (rows : List String) (t : Trace) (i : Nat),
    (∀ l ∈ rows.take j, wfRow l = true) → j ≤ rows.length →
    i + j ≤ t.Frequency.length → i + j ≤ t.Trace1.length →
    i + j ≤ t.Trace2.length → i + j ≤ t.Trace3.length →
    dataLoop t i rows = dataLoop (writeRows t i (rows.take j)) (i + j) (rows.drop j)
  | 0, rows, t, i, _, _, _, _, _, _ => by
    simp [List.take_zero, List.drop_zero, writeRows]
  | j + 1, [], t, i, _, hle, _, _, _, _ => by simp at hle
  | j + 1, r :: rs, t, i, hwf, hle, hb0, hb1, hb2, hb3 => by
    simp only [List.length_cons] at hle
    rw [dataLoop_cons t i r rs (hwf r (by simp [List.take_succ_cons]))
      (by omega) (by omega) (by omega) (by omega)]
    rw [List.take_succ_cons, List.drop_succ_cons, writeRows]
    have harith : i + (j + 1) = (i + 1) + j := by omega
    rw [harith]
    exact dataLoop_reach j rs (writeRow t i r) (i + 1)
      (fun l hl => hwf l (by rw [List.take_succ_cons]; exact List.mem_cons_of_mem r hl))
      (by omega)
      (by simp only [writeRow, List.length_set]; omega)
      (by simp only [writeRow, List.length_set]; omega)
      (by simp only [writeRow, List.length_set]; omega)
      (by simp only [writeRow, List.length_set]; omega)

/-- The column name used in the numeric error message of the data loop. -/
def colName : Nat → String
  | 0 => "frequency"
  | 1 => "trace 1"
  | 2 => "trace 2"
  | _ => "trace 3"

theorem rowErr_some_shape (line : String) (i : Nat) (msg : String)
    (h : rowErr line i = some msg) :
    ((splitComma line).length ≠ 4 ∧ msg = "error in trace data line: " ++ line) ∨
    (∃ c, c < 4 ∧ (splitComma line).length = 4 ∧
      (∀ c', c' < c → (parseFloat (trimSpace ((splitComma line).getD c' ""))).isSome = true) ∧
      parseFloat (trimSpace ((splitComma line).getD c "")) = none ∧
      msg = "error parsing " ++ colName c ++ " " ++ (splitComma line).getD c "" ++
        " for data point " ++ toString i) := by
  by_cases hlen : (splitComma line).length = 4
  · simp only [rowErr] at h
    rw [if_pos hlen] at h
    simp only [List.getD_eq_getElem?_getD] at h
    rcases hv0 : parseFloat (trimSpace ((splitComma line)[0]?.getD "")) with _ | f0
    · simp only [hv0, Option.some.injEq] at h
      refine Or.inr ⟨0, by norm_num, hlen, by omega, ?_, ?_⟩
      · rw [List.getD_eq_getElem?_getD]; exact hv0
      · rw [List.getD_eq_getElem?_getD, ← h]
        simp [colName]
    · simp only [hv0] at h
      rcases hv1 : parseFloat (trimSpace ((splitComma line)[1]?.getD "")) with _ | f1
      · simp only [hv1, Option.some.injEq] at h
        refine Or.inr ⟨1, by norm_num, hlen, ?_, ?_, ?_⟩
        · intro c' hc'
          interval_cases c'
          rw [List.getD_eq_getElem?_getD, hv0]; rfl
        · rw [List.getD_eq_getElem?_getD]; exact hv1
        · rw [List.getD_eq_getElem?_getD, ← h]
          simp [colName]
      · simp only [hv1] at h
        rcases hv2 : parseFloat (trimSpace ((splitComma line)[2]?.getD "")) with _ | f2
        · simp only [hv2, Option.some.injEq] at h
          refine Or.inr ⟨2, by norm_num, hlen, ?_, ?_, ?_⟩
          · intro c' hc'
            interval_cases c'
            · rw [List.getD_eq_getElem?_getD, hv0]; rfl
            · rw [List.getD_eq_getElem?_getD, hv1]; rfl
          · rw [List.getD_eq_getElem?_getD]; exact hv2
          · rw [List.getD_eq_getElem?_getD, ← h]
            simp [colName]
        · simp only [hv2] at h
          rcases hv3 : parseFloat (trimSpace ((splitComma line)[3]?.getD "")) with _ | f3
          · simp only [hv3, Option.some.injEq] at h
            refine Or.inr ⟨3, by norm_num, hlen, ?_, ?_, ?_⟩
            · intro c' hc'
              interval_cases c'
              · rw [List.getD_eq_getElem?_getD, hv0]; rfl
              · rw [List.getD_eq_getElem?_getD, hv1]; rfl
              · rw [List.getD_eq_getElem?_getD, hv2]; rfl
            · rw [List.getD_eq_getElem?_getD]; exact hv3
            · rw [List.getD_eq_getElem?_getD, ← h]
              simp [colName]
          · simp only [hv3] at h
            cases h
  · simp only [rowErr] at h
    rw [if_neg hlen] at h
    injection h with h'
    exact Or.inl ⟨hlen, h'.symm⟩

/-! ### Substring test (for stating what an error message does not contain) -/

/-- Whether `needle` occurs at the start of the list. -/
def leadsWith : List Char → List Char → Bool
  | _, [] => true
  | [], _ :: _ => false
  | a :: as, b :: bs => a == b && leadsWith as bs

/-- Whether `needle` occurs somewhere inside the list. -/
def hasSub : List Char → List Char → Bool
  | [], needle => needle.isEmpty
  | c :: rest, needle => leadsWith (c :: rest) needle || hasSub rest needle

/-- Model of `strings.Contains hay needle`. -/
def strContains (hay needle : String) : Bool :=
  hasSub hay.data needle.data

/-! ### Concrete fixture files -/

/-- A well-formed file in the E4402B fixture shape, declaring 3 points
and carrying 3 data rows. -/
def fileGood : List String := [
  "06/29/2006 11:40:53 AM,C:\\TRACE924.CSV",
  "Title,",
  "Model,E4402B",
  "Serial Number,MY45104598\x00",
  "Center Frequency,34000.0,Hz",
  "Span,50000.0,Hz",
  "Resolution Bandwidth,1000.0,Hz",
  "Video Bandwidth,1000.0,Hz",
  "Reference Level,106.99,dBuV",
  "Sweep Time,0.085,s",
  "Num Points,3",
  "",
  "",
  ",Trace 1,Trace 2,Trace 3",
  "Hz,  dBuV,  dBuV,  dBuV",
  "9000.0,5.90097e+01,1.5,2.5",
  "9125.0,5.92727e+01,1.5,2.5",
  "9250.0,5.90557e+01,1.5,2.5"]

/-- The parse result of `fileGood`. -/
def goodTrace : Trace :=
  { OriginalFilename := "C:\\TRACE924.CSV",
    Model := "E4402B",
    SerialNum := "MY45104598",
    CenterFreq := 34000,
    Span := 50000,
    RBW := 1000,
    VBW := 1000,
    RefLevel := mkRat 10699 100,
    SweepTime := mkRat 85 1000,
    NumPoints := 3,
    Trace1Label := "Trace 1",
    Trace2Label := "Trace 2",
    Trace3Label := "Trace 3",
    FreqUnits := "Hz",
    Trace1Units := "dBuV",
    Trace2Units := "dBuV",
    Trace3Units := "dBuV",
    Frequency := [9000, 9125, 9250],
    Trace1 := [mkRat 590097 10000, mkRat 592727 10000, mkRat 590557 10000],
    Trace2 := [mkRat 15 10, mkRat 15 10, mkRat 15 10],
    Trace3 := [mkRat 25 10, mkRat 25 10, mkRat 25 10] }

/-- A short 15-line header declaring `n` points, followed by `rows`. -/
def mkFile (n : String) (rows : List String) : List String :=
  ["a,f", "a,t", "a,M", "a,S", "a,1.0,u", "a,2.0,u", "a,3.0,u", "a,4.0,u",
   "a,5.0,u", "a,0.5,u", "a," ++ n, "", "", "L,t1,t2,t3", "Hz,u1,u2,u3"] ++ rows

/-- Declares 3 points but carries only 2 rows. -/
def fileUnder : List String := mkFile "3" ["1,10,20,30", "2,11,21,31"]

/-- Declares 1 point but carries 2 well-formed rows. -/
def fileOver : List String := mkFile "1" ["1,10,20,30", "2,11,21,31"]

/-- Declares -1 points. -/
def fileNeg : List String := mkFile "-1" []

/-- Declares 2 points; the second data row has a non-numeric field. -/
def fileBadData : List String := mkFile "2" ["1,10,20,30", "abc,1,2,3"]

/-- A well-formed file whose frequency-units field carries trailing
whitespace (`"Hz "`). -/
def fileC3 : List String :=
  ["a,f", "a,t", "a,M", "a,S", "a,1.0,u", "a,2.0,u", "a,3.0,u", "a,4.0,u",
   "a,5.0,u", "a,0.5,u", "a,1", "", "", "L,t1,t2,t3", "Hz , u1, u2, u3",
   "1,10,20,30"]

/-- The parse result of `fileC3`: note `FreqUnits` keeps its trailing
space while the three trace units are trimmed. -/
def c3Trace : Trace :=
  { OriginalFilename := "f", Title := "t", Model := "M", SerialNum := "S",
    CenterFreq := 1, Span := 2, RBW := 3, VBW := 4, RefLevel := 5,
    SweepTime := mkRat 5 10, NumPoints := 1,
    FreqLabel := "L", Trace1Label := "t1", Trace2Label := "t2", Trace3Label := "t3",
    FreqUnits := "Hz ", Trace1Units := "u1", Trace2Units := "u2", Trace3Units := "u3",
    Frequency := [1], Trace1 := [10], Trace2 := [20], Trace3 := [30] }

/-- A file whose first line has a single comma-separated field. -/
def fileBadHeader : List String := ["onlyonefield"]


/-! ### The claims -/

/-- C1: for every input file on which `ReadCSVFile` returns without
error, the four sample slices `Frequency`, `Trace1`, `Trace2` and
`Trace3` of the returned trace all have length equal to the trace's
`NumPoints` field (the point count parsed from header line 11). -/
theorem C1_sample_lengths (lines : List String) (t : Trace)
    (h : ReadCSVFile lines = .ok t) :
    (t.Frequency.length : Int) = t.NumPoints ∧
    (t.Trace1.length : Int) = t.NumPoints ∧
    (t.Trace2.length : Int) = t.NumPoints ∧
    (t.Trace3.length : Int) = t.NumPoints := by
  rw [ReadCSVFile] at h
  obtain ⟨u, m, h⟩ := readStrLine_ok_next _ _ _ _ _ _ h
  simp only [readTitleOn] at h
  obtain ⟨u, m, h⟩ := readStrLine_ok_next _ _ _ _ _ _ h
  simp only [readModelOn] at h
  obtain ⟨u, m, h⟩ := readStrLine_ok_next _ _ _ _ _ _ h
  simp only [readSerialOn] at h
  obtain ⟨u, m, h⟩ := readStrLine_ok_next _ _ _ _ _ _ h
  simp only [readCenterFreqOn] at h
  obtain ⟨u, m, h⟩ := readRatLine_ok_next _ _ _ _ _ _ _ h
  simp only [readSpanOn] at h
  obtain ⟨u, m, h⟩ := readRatLine_ok_next _ _ _ _ _ _ _ h
  simp only [readRBWOn] at h
  obtain ⟨u, m, h⟩ := readRatLine_ok_next _ _ _ _ _ _ _ h
  simp only [readVBWOn] at h
  obtain ⟨u, m, h⟩ := readRatLine_ok_next _ _ _ _ _ _ _ h
  simp only [readRefLevelOn] at h
  obtain ⟨u, m, h⟩ := readRatLine_ok_next _ _ _ _ _ _ _ h
  simp only [readSweepTimeOn] at h
  obtain ⟨u, m, h⟩ := readRatLine_ok_next _ _ _ _ _ _ _ h
  obtain ⟨u, m, h⟩ := readNumPointsOn_ok_next _ _ _ h
  obtain ⟨u, m, h⟩ := readLabelsOn_ok_next _ _ _ h
  obtain ⟨u, m, h⟩ := readUnitsOn_ok_next _ _ _ h
  exact readDataOn_ok_lens _ _ _ h

/-- C1 witness: the lengths property holds for the concrete parse of
`fileGood`. -/
theorem C1_sample_lengths_witness :
    ReadCSVFile fileGood = .ok goodTrace ∧
    (goodTrace.Frequency.length : Int) = goodTrace.NumPoints ∧
    (goodTrace.Trace1.length : Int) = goodTrace.NumPoints ∧
    (goodTrace.Trace2.length : Int) = goodTrace.NumPoints ∧
    (goodTrace.Trace3.length : Int) = goodTrace.NumPoints := by
  have hp : ReadCSVFile fileGood = .ok goodTrace := by decide
  exact ⟨hp, C1_sample_lengths fileGood goodTrace hp⟩

/-- C2: a file whose data section holds more well-formed 4-field rows
than the declared point count is a failure: in this total embedding the
write of data point `i ≥ NumPoints` is the error branch
(`Result.panic`, Go's bounds-check panic), not an unguarded index, and
the decoder returns that failure value — never a successful trace. -/
theorem C2_surplus_failure (lines : List String)
    (hs : stepsOK lines 13 = true)
    (hnn : 0 ≤ (hdrTrace lines 13).NumPoints)
    (hwf : ∀ l ∈ lines.drop 15, wfRow l = true)
    (hm : (hdrTrace lines 13).NumPoints.toNat < (lines.drop 15).length) :
    ReadCSVFile lines = .panic "runtime error: index out of range" ∧
    ∀ u, ReadCSVFile lines ≠ .ok u := by
  have hp : ReadCSVFile lines = .panic "runtime error: index out of range" := by
    rw [upTo13 lines hs, readDataOn_nonneg _ _ (by omega)]
    exact dataLoop_surplus (lines.drop 15) _ 0 (hdrTrace lines 13).NumPoints.toNat
      hwf (by simp) (by simp) (by simp) (by simp) (Nat.zero_le _) (by omega)
  exact ⟨hp, fun u hu => by rw [hp] at hu; cases hu⟩

/-- C2 witness: `fileOver` declares 1 point and carries 2 well-formed
rows; the parse ends in the out-of-range error branch. -/
theorem C2_surplus_failure_witness :
    stepsOK fileOver 13 = true ∧
    0 ≤ (hdrTrace fileOver 13).NumPoints ∧
    (∀ l ∈ fileOver.drop 15, wfRow l = true) ∧
    (hdrTrace fileOver 13).NumPoints.toNat < (fileOver.drop 15).length ∧
    ReadCSVFile fileOver = .panic "runtime error: index out of range" := by
  refine ⟨by decide, by decide, by decide, by decide, ?_⟩
  exact (C2_surplus_failure fileOver (by decide) (by decide) (by decide) (by decide)).1

/-- C3 as stated is false: the parse of `fileC3` succeeds, its 15th
line has 4 fields, yet the stored `FreqUnits` is the raw field `"Hz "`
and differs from the whitespace-trimmed field — only the three trace
unit strings are trimmed by the source. -/
theorem C3_units_counterexample :
    ReadCSVFile fileC3 = .ok c3Trace ∧
    c3Trace.FreqUnits ≠ trimSpace ((splitComma (nthLine fileC3 14)).getD 0 "") := by
  constructor
  · decide
  · decide

/-- C3 amended: for every successful parse of a file whose 15th line
has exactly 4 comma-separated fields, `Trace1Units`, `Trace2Units` and
`Trace3Units` equal the corresponding field with surrounding whitespace
removed, while `FreqUnits` equals field 0 exactly as written (not
trimmed). -/
theorem C3_amended_units (lines : List String)
    (hs : stepsOK lines 12 = true)
    (hc : (splitComma (nthLine lines 14)).length = 4)
    (t : Trace) (h : ReadCSVFile lines = .ok t) :
    t.FreqUnits = col lines 14 0 ∧
    t.Trace1Units = trimSpace (col lines 14 1) ∧
    t.Trace2Units = trimSpace (col lines 14 2) ∧
    t.Trace3Units = trimSpace (col lines 14 3) := by
  have s13 : stepsOK lines 13 = true := stepsOK_build lines 12 hs (by simp [stepCond, hc])
  rw [upTo13 lines s13] at h
  obtain ⟨_, h1, h2, h3, h4⟩ := pres_data _ _ _ (by rw [h]; rfl)
  refine ⟨?_, ?_, ?_, ?_⟩ <;> simp only [h1, h2, h3, h4, hdrTrace, hdrStep]

/-- C3 amended witness: the unit fields of the concrete parse of
`fileC3`. -/
theorem C3_amended_units_witness :
    stepsOK fileC3 12 = true ∧
    (splitComma (nthLine fileC3 14)).length = 4 ∧
    ReadCSVFile fileC3 = .ok c3Trace ∧
    c3Trace.FreqUnits = col fileC3 14 0 ∧
    c3Trace.Trace1Units = trimSpace (col fileC3 14 1) := by
  have hp : ReadCSVFile fileC3 = .ok c3Trace := by decide
  have hres := C3_amended_units fileC3 (by decide) (by decide) c3Trace hp
  exact ⟨by decide, by decide, hp, hres.1, hres.2.1⟩

/-- C4 as stated is false: a header line with the wrong field count
fails with a message that identifies the logical line but does not
include the line's literal raw text (here `"onlyonefield"`). -/
theorem C4_raw_text_counterexample :
    ReadCSVFile fileBadHeader =
      .fail {} "error in first (date/filename) line: wrong number of entries / got 1 / expected 2" ∧
    strContains
      "error in first (date/filename) line: wrong number of entries / got 1 / expected 2"
      "onlyonefield" = false ∧
    nthLine fileBadHeader 0 = "onlyonefield" := by
  refine ⟨by decide, by decide, by decide⟩

/-- C4 amended: when parsing reaches header line `j` (1-11) and that
line splits into a field count different from the expected one,
`ReadCSVFile` fails immediately; the message names the logical line
(`hdrDesc j`) and reports the observed and expected field counts, but
not the line's raw text. -/
theorem C4_amended_header_count_error (lines : List String) (j : Nat)
    (h1 : 1 ≤ j) (h2 : j ≤ 11) (hok : stepsOK lines (j - 1) = true)
    (hbad : (splitComma (nthLine lines (j - 1))).length ≠ headerExpected j) :
    ReadCSVFile lines = .fail (hdrTrace lines (j - 1)) (hdrFailMsg lines j) :=
  hdrCountFail lines j h1 h2 hok hbad

/-- C4 amended witness: the failure of `fileBadHeader` at line 1. -/
theorem C4_amended_header_count_error_witness :
    (1 : Nat) ≤ 1 ∧ (1 : Nat) ≤ 11 ∧ stepsOK fileBadHeader 0 = true ∧
    (splitComma (nthLine fileBadHeader 0)).length ≠ headerExpected 1 ∧
    ReadCSVFile fileBadHeader = .fail (hdrTrace fileBadHeader 0) (hdrFailMsg fileBadHeader 1) :=
  ⟨by decide, by decide, by decide, by decide,
    C4_amended_header_count_error fileBadHeader 1 (by decide) (by decide) (by decide)
      (by decide)⟩

/-- C5: every failing parse returns the error as an ordinary value
paired with the partially built trace, and that trace holds exactly
the fields extracted by the steps before the failing step — every
later field still holds its Go zero value, the sample slices filled
precisely up to the failing data row (`FailShape`). -/
theorem C5_fail_carries_built_fields (lines : List String) (t : Trace) (msg : String)
    (h : ReadCSVFile lines = .fail t msg) : FailShape lines t msg :=
  readCSV_fail_shape lines t msg h

/-- C5 witness: the concrete failure of `fileBadHeader` satisfies
`FailShape`. -/
theorem C5_fail_carries_built_fields_witness :
    ReadCSVFile fileBadHeader =
      .fail {} "error in first (date/filename) line: wrong number of entries / got 1 / expected 2" ∧
    FailShape fileBadHeader {}
      "error in first (date/filename) line: wrong number of entries / got 1 / expected 2" := by
  have hp : ReadCSVFile fileBadHeader =
      .fail {} "error in first (date/filename) line: wrong number of entries / got 1 / expected 2" := by
    decide
  exact ⟨hp, C5_fail_carries_built_fields _ _ _ hp⟩

/-- C6: a valid 15-line header declaring `N ≥ 0` points followed by
`m < N` well-formed 4-field rows parses successfully; the first `m`
entries of each sample slice hold the parsed values in encounter order
and every entry from position `m` on equals 0. -/
theorem C6_undercount_zero_fill (lines : List String)
    (hs : stepsOK lines 13 = true)
    (hnn : 0 ≤ (hdrTrace lines 13).NumPoints)
    (hwf : ∀ l ∈ lines.drop 15, wfRow l = true)
    (hm : (lines.drop 15).length < (hdrTrace lines 13).NumPoints.toNat) :
    ReadCSVFile lines = .ok (writeRows (allocTrace lines) 0 (lines.drop 15)) ∧
    (∀ k, k < (lines.drop 15).length →
      (writeRows (allocTrace lines) 0 (lines.drop 15)).Frequency.getD k 0 =
        rowVal (nthLine lines (15 + k)) 0 ∧
      (writeRows (allocTrace lines) 0 (lines.drop 15)).Trace1.getD k 0 =
        rowVal (nthLine lines (15 + k)) 1 ∧
      (writeRows (allocTrace lines) 0 (lines.drop 15)).Trace2.getD k 0 =
        rowVal (nthLine lines (15 + k)) 2 ∧
      (writeRows (allocTrace lines) 0 (lines.drop 15)).Trace3.getD k 0 =
        rowVal (nthLine lines (15 + k)) 3) ∧
    (∀ k, (lines.drop 15).length ≤ k →
      (writeRows (allocTrace lines) 0 (lines.drop 15)).Frequency.getD k 0 = 0 ∧
      (writeRows (allocTrace lines) 0 (lines.drop 15)).Trace1.getD k 0 = 0 ∧
      (writeRows (allocTrace lines) 0 (lines.drop 15)).Trace2.getD k 0 = 0 ∧
      (writeRows (allocTrace lines) 0 (lines.drop 15)).Trace3.getD k 0 = 0) := by
  refine ⟨?_, ?_, ?_⟩
  · rw [upTo13 lines hs, readDataOn_nonneg _ _ (by omega)]
    exact dataLoop_all_ok (lines.drop 15) _ 0 hwf
      (by simpa using Nat.le_of_lt hm) (by simpa using Nat.le_of_lt hm)
      (by simpa using Nat.le_of_lt hm) (by simpa using Nat.le_of_lt hm)
  · intro k hk
    refine ⟨?_, ?_, ?_, ?_⟩
    · rw [writeRows_freq, setSeq_getD _ _ _ _ (by simp only [List.length_map,
          Nat.zero_add, (allocTrace_lens lines).1]; omega),
        if_pos ⟨Nat.zero_le k, by simpa using hk⟩, Nat.sub_zero, getD_map_rowVal]
      congr 1
      exact nthLine_drop lines 15 k
    · rw [writeRows_t1, setSeq_getD _ _ _ _ (by simp only [List.length_map,
          Nat.zero_add, (allocTrace_lens lines).2.1]; omega),
        if_pos ⟨Nat.zero_le k, by simpa using hk⟩, Nat.sub_zero, getD_map_rowVal]
      congr 1
      exact nthLine_drop lines 15 k
    · rw [writeRows_t2, setSeq_getD _ _ _ _ (by simp only [List.length_map,
          Nat.zero_add, (allocTrace_lens lines).2.2.1]; omega),
        if_pos ⟨Nat.zero_le k, by simpa using hk⟩, Nat.sub_zero, getD_map_rowVal]
      congr 1
      exact nthLine_drop lines 15 k
    · rw [writeRows_t3, setSeq_getD _ _ _ _ (by simp only [List.length_map,
          Nat.zero_add, (allocTrace_lens lines).2.2.2]; omega),
        if_pos ⟨Nat.zero_le k, by simpa using hk⟩, Nat.sub_zero, getD_map_rowVal]
      congr 1
      exact nthLine_drop lines 15 k
  · intro k hk
    refine ⟨?_, ?_, ?_, ?_⟩
    · rw [writeRows_freq, setSeq_getD _ _ _ _ (by simp only [List.length_map,
          Nat.zero_add, (allocTrace_lens lines).1]; omega),
        if_neg (by simp only [Nat.zero_add, List.length_map]; omega)]
      rw [show (allocTrace lines).Frequency =
        List.replicate (hdrTrace lines 13).NumPoints.toNat 0 from rfl,
        getD_replicate_zero]
    · rw [writeRows_t1, setSeq_getD _ _ _ _ (by simp only [List.length_map,
          Nat.zero_add, (allocTrace_lens lines).2.1]; omega),
        if_neg (by simp only [Nat.zero_add, List.length_map]; omega)]
      rw [show (allocTrace lines).Trace1 =
        List.replicate (hdrTrace lines 13).NumPoints.toNat 0 from rfl,
        getD_replicate_zero]
    · rw [writeRows_t2, setSeq_getD _ _ _ _ (by simp only [List.length_map,
          Nat.zero_add, (allocTrace_lens lines).2.2.1]; omega),
        if_neg (by simp only [Nat.zero_add, List.length_map]; omega)]
      rw [show (allocTrace lines).Trace2 =
        List.replicate (hdrTrace lines 13).NumPoints.toNat 0 from rfl,
        getD_replicate_zero]
    · rw [writeRows_t3, setSeq_getD _ _ _ _ (by simp only [List.length_map,
          Nat.zero_add, (allocTrace_lens lines).2.2.2]; omega),
        if_neg (by simp only [Nat.zero_add, List.length_map]; omega)]
      rw [show (allocTrace lines).Trace3 =
        List.replicate (hdrTrace lines 13).NumPoints.toNat 0 from rfl,
        getD_replicate_zero]

/-- C6 witness: `fileUnder` declares 3 points with 2 rows; the parse
succeeds, entry 0 holds the first row's values and entry 2 is zero. -/
theorem C6_undercount_zero_fill_witness :
    stepsOK fileUnder 13 = true ∧
    0 ≤ (hdrTrace fileUnder 13).NumPoints ∧
    (∀ l ∈ fileUnder.drop 15, wfRow l = true) ∧
    (fileUnder.drop 15).length < (hdrTrace fileUnder 13).NumPoints.toNat ∧
    ReadCSVFile fileUnder = .ok (writeRows (allocTrace fileUnder) 0 (fileUnder.drop 15)) ∧
    (writeRows (allocTrace fileUnder) 0 (fileUnder.drop 15)).Frequency.getD 0 0 =
      rowVal (nthLine fileUnder 15) 0 ∧
    (writeRows (allocTrace fileUnder) 0 (fileUnder.drop 15)).Trace1.getD 2 0 = 0 := by
  have hres := C6_undercount_zero_fill fileUnder (by decide) (by decide) (by decide)
    (by decide)
  exact ⟨by decide, by decide, by decide, by decide, hres.1,
    (hres.2.1 0 (by decide)).1, (hres.2.2 2 (by decide)).2.1⟩

/-- C7: once the data section is reached, a data line that does not
split into 4 fields or has a field that fails float conversion after
trimming prevents a successful result; when the first offending row is
reached its error is value-returned, and a numeric-conversion message
names the offending field's raw text, the failing column, and the
0-based data-point index. -/
theorem C7_malformed_data_line (lines : List String)
    (hs : stepsOK lines 13 = true) :
    ((∃ l ∈ lines.drop 15, wfRow l = false) → ∀ u, ReadCSVFile lines ≠ .ok u) ∧
    (∀ j msg, 0 ≤ (hdrTrace lines 13).NumPoints →
      (∀ l ∈ (lines.drop 15).take j, wfRow l = true) →
      j < (lines.drop 15).length →
      j ≤ (hdrTrace lines 13).NumPoints.toNat →
      rowErr (nthLine lines (15 + j)) j = some msg →
      (∃ t', ReadCSVFile lines = .fail t' msg) ∧
      (((splitComma (nthLine lines (15 + j))).length ≠ 4 ∧
          msg = "error in trace data line: " ++ nthLine lines (15 + j)) ∨
        ∃ c, c < 4 ∧ (splitComma (nthLine lines (15 + j))).length = 4 ∧
          (∀ c', c' < c →
            (parseFloat (trimSpace ((splitComma (nthLine lines (15 + j))).getD c' ""))).isSome
              = true) ∧
          parseFloat (trimSpace ((splitComma (nthLine lines (15 + j))).getD c "")) = none ∧
          msg = "error parsing " ++ colName c ++ " " ++
            (splitComma (nthLine lines (15 + j))).getD c "" ++
            " for data point " ++ toString j)) := by
  constructor
  · intro hex u hok
    obtain ⟨l, hl, hbad⟩ := hex
    rw [upTo13 lines hs] at hok
    simp only [readDataOn] at hok
    by_cases hneg : (hdrTrace lines 13).NumPoints < 0
    · rw [if_pos hneg] at hok
      cases hok
    · rw [if_neg hneg] at hok
      have := dataLoop_ok_wf _ _ _ _ hok l hl
      rw [this] at hbad
      cases hbad
  · intro j msg hnn hwf hj hjN herr
    constructor
    · refine ⟨writeRows (allocTrace lines) 0 ((lines.drop 15).take j), ?_⟩
      rw [upTo13 lines hs, readDataOn_nonneg _ _ (by omega)]
      show dataLoop (allocTrace lines) 0 (lines.drop 15) = _
      have hreach := dataLoop_reach j (lines.drop 15) (allocTrace lines) 0 hwf
        (by omega)
        (by simp only [Nat.zero_add, (allocTrace_lens lines).1]; omega)
        (by simp only [Nat.zero_add, (allocTrace_lens lines).2.1]; omega)
        (by simp only [Nat.zero_add, (allocTrace_lens lines).2.2.1]; omega)
        (by simp only [Nat.zero_add, (allocTrace_lens lines).2.2.2]; omega)
      rw [hreach]
      have hdecomp : (lines.drop 15).drop j =
          nthLine lines (15 + j) :: (lines.drop 15).drop (j + 1) := by
        rw [List.drop_eq_getElem_cons hj]
        congr 1
        rw [show nthLine lines (15 + j) = nthLine (lines.drop 15) j from
          (nthLine_drop lines 15 j).symm]
        rw [nthLine, List.getD_eq_getElem?_getD, List.getElem?_eq_getElem hj]
        rfl
      rw [hdecomp, dataLoop_cons_eq]
      have herr' : rowErr (nthLine lines (15 + j)) (0 + j) = some msg := by
        rw [Nat.zero_add]
        exact herr
      simp only [herr']
    · exact rowErr_some_shape _ _ _ herr

/-- C7 witness: the second row of `fileBadData` fails float conversion
in its first column; the parse fails with the message naming the raw
field `abc`, the frequency column, and point index 1. -/
theorem C7_malformed_data_line_witness :
    stepsOK fileBadData 13 = true ∧
    rowErr (nthLine fileBadData 16) 1 = some "error parsing frequency abc for data point 1" ∧
    (∃ t', ReadCSVFile fileBadData = .fail t' "error parsing frequency abc for data point 1") := by
  have hres := (C7_malformed_data_line fileBadData (by decide)).2 1
    "error parsing frequency abc for data point 1" (by decide) (by decide) (by decide)
    (by decide) (by decide)
  exact ⟨by decide, by decide, hres.1⟩

/-- C8: when parsing reaches a fourth header line with exactly 2
comma-separated fields, the `SerialNum` of any returned trace equals
the second field with one trailing NUL byte removed; in particular
`"MY45104598\x00"` yields `"MY45104598"`, and a field without a
trailing NUL is stored unchanged. -/
theorem C8_serial_nul_stripped (lines : List String)
    (hs : stepsOK lines 3 = true)
    (hc : (splitComma (nthLine lines 3)).length = 2) :
    (∀ t', traceOf (ReadCSVFile lines) = some t' →
      t'.SerialNum = trimSuffix (col lines 3 1) "\x00") ∧
    trimSuffix "MY45104598\x00" "\x00" = "MY45104598" ∧
    trimSuffix "MY45104598" "\x00" = "MY45104598" := by
  refine ⟨?_, by decide, by decide⟩
  intro t' h
  have s4 : stepsOK lines 4 = true := stepsOK_build lines 3 hs (by simp [stepCond, hc])
  rw [upTo4 lines s4] at h
  rw [serial_from5 _ _ _ h]
  simp only [hdrTrace, hdrStep]

/-- C8 witness: the serial number of the concrete parse of `fileGood`
has its trailing NUL stripped. -/
theorem C8_serial_nul_stripped_witness :
    stepsOK fileGood 3 = true ∧
    (splitComma (nthLine fileGood 3)).length = 2 ∧
    traceOf (ReadCSVFile fileGood) = some goodTrace ∧
    goodTrace.SerialNum = trimSuffix (col fileGood 3 1) "\x00" := by
  have hp : traceOf (ReadCSVFile fileGood) = some goodTrace := by decide
  exact ⟨by decide, by decide, hp,
    (C8_serial_nul_stripped fileGood (by decide) (by decide)).1 goodTrace hp⟩

/-- C9: `ReadCSVFile` is deterministic — parsing the same file content
twice yields structurally equal results (the same trace, field for
field, and the same error outcome). -/
theorem C9_deterministic (lines1 lines2 : List String) (h : lines1 = lines2) :
    ReadCSVFile lines1 = ReadCSVFile lines2 := by
  rw [h]

/-- C9 witness: two parses of `fileGood` agree. -/
theorem C9_deterministic_witness :
    ReadCSVFile fileGood = ReadCSVFile fileGood :=
  C9_deterministic fileGood fileGood rfl

/-- C10: the declared point count is never validated to be
non-negative: `"-1"` converts successfully (`atoi`), parsing reaches
the sample-slice allocation with a negative length, and the run ends in
the `makeslice` runtime panic — not in a value-returned error. -/
theorem C10_negative_count_panics :
    atoi "-1" = some (-1) ∧
    ReadCSVFile fileNeg = .panic "runtime error: makeslice: len out of range" ∧
    traceOf (ReadCSVFile fileNeg) = none := by
  have hp : ReadCSVFile fileNeg = .panic "runtime error: makeslice: len out of range" := by
    decide
  refine ⟨by decide, hp, ?_⟩
  rw [hp]
  rfl

end Esa
